import Mathlib

/-!
# spiffe-aws-assume-role: the `credentials` command

A shallow embedding of `cmd/spiffe-aws-assume-role/cli/credentials_cmd.go`.

The command is wiring: nearly every step is a call into another package.
Those calls are parameters of the model (`Externals` for package-level
functions, `CliContext` for the function-valued fields of the CLI context),
and every call the command makes is recorded, in program order, in a trace of
`Event`s together with the plain data it was given and the error it returned.
Handles returned by collaborators (telemetry, token source, session, STS
client, provider, log file, Sentry hook) are values of abstract types bundled
in `Handles`.

Control flow that leaves `Run` other than by `return` is kept apart in
`Outcome`: `session.Must` panics when `session.NewSession` fails, and
`logger.Fatalf` ends the process.
-/

namespace SpiffeAwsAssumeRole

/-! ## Go values -/

/-- A Go `[]byte`, and the bytes of the Go string made from it by `string(b)`. -/
abbrev Bytes := List Nat

/-- Go's builtin `len` on a string: its length in bytes. -/
def len (s : String) : Nat := s.utf8ByteSize

/-- A non-nil Go `error`. `root` is an error that is not a layer of
`github.com/pkg/errors`, known by its message; it has no `Cause()` method.
`withMessage` and `withStack` are the two layers of that package: a message
put in front of a cause, and a stack trace attached to an error (the trace
itself is left out). -/
inductive GoError where
  | root (msg : String)
  | withMessage (cause : GoError) (msg : String)
  | withStack (err : GoError)
  deriving DecidableEq, Repr

namespace GoError

/-- The `Error()` method: a message layer gives message, colon, cause; a
stack layer gives the message of the error it holds. -/
def Error : GoError → String
  | root msg => msg
  | withMessage cause msg => msg ++ ": " ++ Error cause
  | withStack err => Error err

/-- The `Cause()` method of the two layers: the cause of a message layer, the
error a stack layer holds; `none` for an error without the method. -/
def Cause : GoError → Option GoError
  | root _ => none
  | withMessage cause _ => some cause
  | withStack err => some err

/-- Whether the message of the error contains `value`. -/
def names (err : GoError) (value : String) : Prop := value.data <:+: err.Error.data

instance (err : GoError) (value : String) : Decidable (err.names value) :=
  inferInstanceAs (Decidable (value.data <:+: err.Error.data))

end GoError

namespace errors

/-- `errors.Wrap(err, message)`: nil for a nil `err`, else a stack layer
around a message layer around `err`. -/
def Wrap : Option GoError → String → Option GoError
  | none, _ => none
  | some err, message => some (GoError.withStack (GoError.withMessage err message))

/-- `errors.Cause(err)`: follows `Cause()` for as long as the error has that
method, and returns the first error without it. -/
def Cause : GoError → GoError
  | .root msg => .root msg
  | .withMessage cause _ => Cause cause
  | .withStack err => Cause err

end errors

deriving instance DecidableEq for Except

/-- The `error` result of a call that also returns a value: nil when the
call succeeded. -/
def errorOf {α : Type} : Except GoError α → Option GoError
  | .error err => some err
  | .ok _ => none

/-! ## Types of the packages the command uses -/

namespace logrus

/-- The levels of `logrus.Level`, most severe first. -/
inductive Level where
  | PanicLevel | FatalLevel | ErrorLevel | WarnLevel | InfoLevel | DebugLevel | TraceLevel
  deriving DecidableEq, Repr

/-- Where a logger writes: standard error or an opened file. -/
inductive Sink (File : Type) where
  | Stderr
  | file (f : File)

/-- The fields of `logrus.Logger` the command touches. `Out` lists the
writers the output is duplicated to (`io.MultiWriter`). -/
structure Logger (File Hook : Type) where
  Out : List (Sink File)
  Level : Level
  Hooks : List Hook

end logrus

namespace spiffeid

/-- The `spiffeid.ID` struct: trust domain and path. -/
structure ID where
  td : String
  path : String
  deriving DecidableEq, Repr

/-- The zero value `spiffeid.ID{}`. -/
def ID.zero : ID := { td := "", path := "" }

end spiffeid

namespace aws

/-- The `aws.Config` struct. `Endpoint` and `Region` are its `*string` fields
of those names, `none` for nil; `Other` lists every other field that has been
set, by name. -/
structure Config where
  Endpoint : Option String
  Region : Option String
  Other : List (String × String)
  deriving DecidableEq, Repr

/-- The zero value `aws.Config{}`: nothing set. -/
def Config.zero : Config := { Endpoint := none, Region := none, Other := [] }

end aws

namespace telemetry

/-- The fields of `telemetry.TelemetryOpts` the command reads or writes.
`Labels` is a Go map; it is given as its entries in the order `range` yields
them in this invocation. -/
structure TelemetryOpts where
  Socket : String
  ServiceName : String
  ServiceAsLabel : Bool
  Labels : List (String × String)
  OIDCMetricName : List String
  deriving DecidableEq, Repr

end telemetry

/-- The types of the handles collaborators return. -/
structure Handles where
  File : Type
  Hook : Type
  Telemetry : Type
  JWTSource : Type
  Session : Type
  STSClient : Type
  Provider : Type

/-- The logger type of an invocation. -/
abbrev Handles.Logger (H : Handles) : Type := logrus.Logger H.File H.Hook

/-- Flags of `os.OpenFile`. -/
inductive OpenFlag where
  | O_CREATE | O_WRONLY | O_APPEND
  deriving DecidableEq, Repr

/-! ## The command and its context -/

/-- The `CredentialsCmd` struct. `SessionDuration` is a `time.Duration`, a
count of nanoseconds. -/
structure CredentialsCmd where
  Audience : String
  SpiffeID : String
  WorkloadSocket : String
  RoleARN : String
  SessionName : String
  STSEndpoint : String
  STSRegion : String
  SessionDuration : Int
  LogFilePath : String
  TelemetrySocket : String
  TelemetryName : String
  TelemetryServiceAsLabel : Bool
  SentryDSN : String
  Debug : Bool
  deriving DecidableEq, Repr

/-- The fields of `CliContext` the command uses. -/
structure CliContext (H : Handles) where
  JWTSourceProvider : spiffeid.ID → String → String → H.Logger → H.Telemetry → H.JWTSource
  STSProvider : H.Session → H.STSClient
  Logger : H.Logger
  Telemetry : Option H.Telemetry
  TelemetryOpts : telemetry.TelemetryOpts

/-- The package-level functions the command calls, each with the part of its
result the command looks at.

* `OpenFile name flags perm` is `os.OpenFile`;
* `NewSentryHook dsn levels` is `logrus_sentry.NewSentryHook`;
* `NewTelemetry opts` is `telemetry.NewTelemetry`;
* `FromString s` is `spiffeid.FromString`;
* `NewSession config` is `session.NewSession`;
* `NewProvider audience roleARN src sessionName sessionDuration stsClient t logger`
  is `credentials.NewProvider`;
* `SerializeCredentials provider` is `processcreds.SerializeCredentials`;
* `Print s` is the error returned by `fmt.Print(s)` for a single string
  operand, which writes the bytes of `s` to standard output. -/
structure Externals (H : Handles) where
  OpenFile : String → List OpenFlag → Nat → Except GoError H.File
  NewSentryHook : String → List logrus.Level → Except GoError H.Hook
  NewTelemetry : telemetry.TelemetryOpts → Except GoError H.Telemetry
  FromString : String → Except GoError spiffeid.ID
  NewSession : aws.Config → Except GoError H.Session
  NewProvider : String → String → H.JWTSource → String → Int → H.STSClient →
    H.Telemetry → H.Logger → Except GoError H.Provider
  SerializeCredentials : H.Provider → Except GoError Bytes
  Print : Bytes → Option GoError

/-- One call made by the command, with the plain data passed to it and, for a
call that can fail, the error it returned (`none` for nil). The calls
`emitMetrics` and `Close` are the two deferred calls of `Run`; `emitMetrics`
carries the value the error variable behind the pointer given to `Instrument`
holds when the callback runs. -/
inductive Event where
  | OpenFile (name : String) (flags : List OpenFlag) (perm : Nat) (err : Option GoError)
  | LoggerInfo (err : GoError)
  | NewSentryHook (dsn : String) (levels : List logrus.Level) (err : Option GoError)
  | LoggerFatalf (msg : String)
  | NewTelemetry (opts : telemetry.TelemetryOpts) (err : Option GoError)
  | AddLabel (key value : String)
  | Instrument (metricName : List String)
  | FromString (s : String) (err : Option GoError)
  | JWTSourceProvider (spiffeID : spiffeid.ID) (workloadSocket audience : String)
  | NewSession (config : aws.Config) (err : Option GoError)
  | STSProvider
  | NewProvider (audience roleARN sessionName : String) (sessionDuration : Int)
      (err : Option GoError)
  | SerializeCredentials (result : Except GoError Bytes)
  | Print (s : Bytes) (err : Option GoError)
  | emitMetrics (err : Option GoError)
  | Close
  deriving DecidableEq

/-- How an invocation of `Run` ends: it returns its `error` result, it
panics, or the process exits. -/
inductive Outcome where
  | returned (err : Option GoError)
  | panicked (value : GoError)
  | exited (code : Nat)
  deriving DecidableEq

/-- What `Run` leaves behind: the calls it made, how it ended, and the
context and the command as they stand afterwards (both are passed by
pointer). -/
structure RunResult (H : Handles) where
  trace : List Event
  outcome : Outcome
  context : CliContext H
  cmd : CredentialsCmd

namespace fmt

/-- `fmt.Sprintf(format, arg)` for a format that ends in its only verb, `%s`
or, with an error's message as `arg`, `%v`; `head` is the format without the
verb. -/
def Sprintf (head arg : String) : String := head ++ arg

end fmt

/-! ## The operations -/

section Operations

variable {H : Handles}

/-- `CredentialsCmd.configureLogger`: the logger as changed, and the calls
made. -/
def configureLogger (E : Externals H) (c : CredentialsCmd) (logger : H.Logger) :
    H.Logger × List Event :=
  let r : H.Logger × List Event :=
    if len c.LogFilePath > 0 then
      match E.OpenFile c.LogFilePath [.O_CREATE, .O_WRONLY, .O_APPEND] 0o666 with
      | .error err =>
          (logger,
            [.OpenFile c.LogFilePath [.O_CREATE, .O_WRONLY, .O_APPEND] 0o666 (some err),
             .LoggerInfo (GoError.withStack (GoError.withMessage err
               ("Failed to log to file " ++ c.LogFilePath ++ ", using default of stderr")))])
      | .ok file =>
          ({ logger with Out := [.Stderr, .file file] },
            [.OpenFile c.LogFilePath [.O_CREATE, .O_WRONLY, .O_APPEND] 0o666 none])
    else (logger, [])
  if c.Debug then ({ r.1 with Level := .DebugLevel }, r.2) else r

/-- `CredentialsCmd.configureSentry`: the logger as changed, or `none` when
`logger.Fatalf` ended the process, and the calls made. -/
def configureSentry (E : Externals H) (c : CredentialsCmd) (logger : H.Logger) :
    Option H.Logger × List Event :=
  if c.SentryDSN = "" then (some logger, [])
  else
    match E.NewSentryHook c.SentryDSN [.PanicLevel, .FatalLevel, .ErrorLevel] with
    | .error err =>
        (none,
          [.NewSentryHook c.SentryDSN [.PanicLevel, .FatalLevel, .ErrorLevel] (some err),
           .LoggerFatalf (fmt.Sprintf "unable to initialize Sentry Hook " err.Error)])
    | .ok hook =>
        (some { logger with Hooks := logger.Hooks ++ [hook] },
          [.NewSentryHook c.SentryDSN [.PanicLevel, .FatalLevel, .ErrorLevel] none])

/-- The options `configureTelemetry` hands to `telemetry.NewTelemetry`: those
of the context, overridden by the fields of the command that are set. -/
def configuredOpts (c : CredentialsCmd) (opts : telemetry.TelemetryOpts) :
    telemetry.TelemetryOpts :=
  let opts := if c.TelemetrySocket ≠ "" then { opts with Socket := c.TelemetrySocket } else opts
  let opts := if c.TelemetryName ≠ "" then { opts with ServiceName := c.TelemetryName } else opts
  if c.TelemetryServiceAsLabel then
    { opts with ServiceAsLabel := c.TelemetryServiceAsLabel }
  else opts

/-- `CredentialsCmd.configureTelemetry`: its two results, the context as
changed, and the calls made. -/
def configureTelemetry (E : Externals H) (c : CredentialsCmd) (context : CliContext H) :
    Except GoError H.Telemetry × CliContext H × List Event :=
  let context := { context with TelemetryOpts := configuredOpts c context.TelemetryOpts }
  match E.NewTelemetry context.TelemetryOpts with
  | .error err => (.error err, context, [.NewTelemetry context.TelemetryOpts (some err)])
  | .ok t =>
      (.ok t, context,
        [.NewTelemetry context.TelemetryOpts none]
          ++ (if len c.STSRegion > 0 then [Event.AddLabel "stsRegion" c.STSRegion] else [])
          ++ context.TelemetryOpts.Labels.map (fun kv => Event.AddLabel kv.1 kv.2))

/-- The `aws.Config` that `createSession` builds. -/
def createSessionConfig (stsEndpoint stsRegion : String) : aws.Config :=
  let config := aws.Config.zero
  let config := if len stsEndpoint > 0 then { config with Endpoint := some stsEndpoint } else config
  if len stsRegion > 0 then { config with Region := some stsRegion } else config

/-- `createSession`: the session, or the error `session.Must` panics with. -/
def createSession (E : Externals H) (stsEndpoint stsRegion : String) :
    Except GoError H.Session :=
  E.NewSession (createSessionConfig stsEndpoint stsRegion)

/-- What the body of `Run` after its two `defer` statements leaves behind:
the calls made, the value of the named result `err` when the body is left
(this is what the deferred callback reads through its pointer), and the
value of a panic in flight, if any. -/
structure Body where
  events : List Event
  err : Option GoError
  panic : Option GoError

/-- The block of `Run` that sets `spiffeID`: the zero value, replaced by the
parsed ID when the command names one. The result is the ID or the error of
`spiffeid.FromString`, and the calls made. -/
def parseSpiffeID (E : Externals H) (c : CredentialsCmd) :
    Except GoError spiffeid.ID × List Event :=
  if c.SpiffeID ≠ "" then
    match E.FromString c.SpiffeID with
    | .error err => (.error err, [.FromString c.SpiffeID (some err)])
    | .ok id => (.ok id, [.FromString c.SpiffeID none])
  else (.ok spiffeid.ID.zero, [])

/-- The statements of `Run` that follow `defer emitMetrics()`. -/
def runBody (E : Externals H) (c : CredentialsCmd) (context : CliContext H)
    (t : H.Telemetry) : Body :=
  match parseSpiffeID E c with
  | (.error err, ev) =>
      { events := ev
        err := errors.Wrap (some err) (fmt.Sprintf "failed to parse SPIFFE ID from " c.SpiffeID)
        panic := none }
  | (.ok spiffeID, ev) =>
    let src := context.JWTSourceProvider spiffeID c.WorkloadSocket c.Audience context.Logger t
    let ev := ev ++ [.JWTSourceProvider spiffeID c.WorkloadSocket c.Audience]
    match createSession E c.STSEndpoint c.STSRegion with
    | .error p =>
        { events := ev ++ [.NewSession (createSessionConfig c.STSEndpoint c.STSRegion) (some p)]
          err := none
          panic := some p }
    | .ok session =>
      let stsClient := context.STSProvider session
      let ev := ev ++ [.NewSession (createSessionConfig c.STSEndpoint c.STSRegion) none,
        .STSProvider]
      match E.NewProvider c.Audience c.RoleARN src c.SessionName c.SessionDuration stsClient t
          context.Logger with
      | .error err =>
          { events := ev ++ [.NewProvider c.Audience c.RoleARN c.SessionName c.SessionDuration
              (some err)]
            err := errors.Wrap (some err) "failed to instantiate credentials provider"
            panic := none }
      | .ok provider =>
        let ev := ev ++ [.NewProvider c.Audience c.RoleARN c.SessionName c.SessionDuration none]
        match E.SerializeCredentials provider with
        | .error err =>
            { events := ev ++ [.SerializeCredentials (.error err)]
              err := errors.Wrap (some err) "failed to serialize credentials"
              panic := none }
        | .ok creds =>
            { events := ev ++ [.SerializeCredentials (.ok creds), .Print creds (E.Print creds)]
              err := E.Print creds
              panic := none }

/-- Modelled from the spec: the callback returned by `Telemetry.Instrument`
(package `telemetry` is not among the sources), given the value of the error
variable behind the pointer `Instrument` received. The observability sink is
"called around the refresh path but never altering its control flow or
return values": the callback reads the error and leaves it as it is. The
result is the call made and the value of the error variable afterwards. -/
def emitMetrics (err : Option GoError) : List Event × Option GoError :=
  ([.emitMetrics err], err)

/-- How `Run` ends once the deferred calls have run: a panic in flight goes
on, otherwise the named result `err` is returned. -/
def Outcome.ofExit (panic err : Option GoError) : Outcome :=
  match panic with
  | some p => .panicked p
  | none => .returned err

/-- `CredentialsCmd.Run`. The deferred calls run when the body is left, last
deferred first: the callback returned by `Instrument`, then `t.Close()`.
`logger.Fatalf` ends the process with status 1. -/
def Run (E : Externals H) (c : CredentialsCmd) (context : CliContext H) : RunResult H :=
  let lg := configureLogger E c context.Logger
  let context := { context with Logger := lg.1 }
  match configureSentry E c context.Logger with
  | (none, ev2) =>
      { trace := lg.2 ++ ev2, outcome := .exited 1, context := context, cmd := c }
  | (some logger, ev2) =>
    let context := { context with Logger := logger }
    match configureTelemetry E c context with
    | (.error err, context, ev3) =>
        { trace := lg.2 ++ ev2 ++ ev3
          outcome := .returned (errors.Wrap (some err)
            (fmt.Sprintf "failed to configure telemetry for socket address " c.TelemetrySocket))
          context := context
          cmd := c }
    | (.ok t, context, ev3) =>
      let context := { context with Telemetry := some t }
      let b := runBody E c context t
      let d := emitMetrics b.err
      { trace := lg.2 ++ ev2 ++ ev3 ++ [.Instrument context.TelemetryOpts.OIDCMetricName]
          ++ b.events ++ d.1 ++ [.Close]
        outcome := Outcome.ofExit b.panic d.2
        context := context
        cmd := c }

end Operations

/-! ## Reading a trace -/

/-- The byte strings handed to `fmt.Print`, in order: what the command wrote
to standard output. -/
def stdoutWrites : List Event → List Bytes
  | [] => []
  | .Print s _ :: es => s :: stdoutWrites es
  | _ :: es => stdoutWrites es

/-- Whether the call is the `fmt.Print` of `Run`. -/
def Event.isPrint : Event → Bool
  | .Print _ _ => true
  | _ => false

/-- The four stages of `Run` that end it with a wrapped error. -/
inductive Stage where
  | telemetry | spiffeID | provider | serialize
  deriving DecidableEq, Repr

/-- The context message `Run` wraps the error of a stage in. -/
def Stage.message (c : CredentialsCmd) : Stage → String
  | .telemetry => "failed to configure telemetry for socket address " ++ c.TelemetrySocket
  | .spiffeID => "failed to parse SPIFFE ID from " ++ c.SpiffeID
  | .provider => "failed to instantiate credentials provider"
  | .serialize => "failed to serialize credentials"

/-- For the failed call of a stage, the stage and the error the call
returned. -/
def Event.stageFailure : Event → Option (Stage × GoError)
  | .NewTelemetry _ (some err) => some (.telemetry, err)
  | .FromString _ (some err) => some (.spiffeID, err)
  | .NewProvider _ _ _ _ (some err) => some (.provider, err)
  | .SerializeCredentials (.error err) => some (.serialize, err)
  | _ => none

/-- Whether the call builds or uses a network-facing collaborator: the token
source, the AWS session, the STS client, the provider, or the serializer that
retrieves the credentials. -/
def Event.isCollaborator : Event → Bool
  | .JWTSourceProvider _ _ _ => true
  | .NewSession _ _ => true
  | .STSProvider => true
  | .NewProvider _ _ _ _ _ => true
  | .SerializeCredentials _ => true
  | _ => false

/-- Whether the call belongs to `configureLogger` or `configureSentry`. -/
def Event.isLogging : Event → Bool
  | .OpenFile _ _ _ _ => true
  | .LoggerInfo _ => true
  | .NewSentryHook _ _ _ => true
  | .LoggerFatalf _ => true
  | _ => false

/-- Whether the call is a `t.AddLabel`. -/
def Event.isAddLabel : Event → Bool
  | .AddLabel _ _ => true
  | _ => false

/-- Whether `Run` ended by returning nil. -/
def Outcome.succeeded : Outcome → Bool
  | .returned none => true
  | _ => false

/-- The paths through `Run`, each with the trace and the outcome it leaves.
`pre` stands for the calls of `configureLogger` and `configureSentry`,
`labels` for the `AddLabel` calls of `configureTelemetry`, `pev` for the
call of `spiffeid.FromString`, if made, and `spiffeID` for the ID in use
after it. -/
inductive RunPath {H : Handles} (E : Externals H) (c : CredentialsCmd) (context : CliContext H) :
    List Event → Outcome → Prop where
  | fatal (pre : List Event) (hpre : ∀ ev ∈ pre, ev.isLogging = true) :
      RunPath E c context pre (.exited 1)
  | telemetryFailed (pre : List Event) (hpre : ∀ ev ∈ pre, ev.isLogging = true)
      (err : GoError)
      (hnew : E.NewTelemetry (configuredOpts c context.TelemetryOpts) = .error err) :
      RunPath E c context
        (pre ++ [.NewTelemetry (configuredOpts c context.TelemetryOpts) (some err)])
        (.returned (some (GoError.withStack (GoError.withMessage err (Stage.message c .telemetry)))))
  | parseFailed (pre labels : List Event) (hpre : ∀ ev ∈ pre, ev.isLogging = true)
      (hlabels : ∀ ev ∈ labels, ev.isAddLabel = true) (t : H.Telemetry)
      (hnew : E.NewTelemetry (configuredOpts c context.TelemetryOpts) = .ok t)
      (err : GoError) (hne : c.SpiffeID ≠ "") (hparse : E.FromString c.SpiffeID = .error err) :
      RunPath E c context
        (pre ++ [.NewTelemetry (configuredOpts c context.TelemetryOpts) none] ++ labels
          ++ [.Instrument context.TelemetryOpts.OIDCMetricName]
          ++ [.FromString c.SpiffeID (some err)]
          ++ [.emitMetrics (some (GoError.withStack (GoError.withMessage err (Stage.message c .spiffeID)))), .Close])
        (.returned (some (GoError.withStack (GoError.withMessage err (Stage.message c .spiffeID)))))
  | sessionPanicked (pre labels pev : List Event) (hpre : ∀ ev ∈ pre, ev.isLogging = true)
      (hlabels : ∀ ev ∈ labels, ev.isAddLabel = true) (t : H.Telemetry)
      (hnew : E.NewTelemetry (configuredOpts c context.TelemetryOpts) = .ok t)
      (spiffeID : spiffeid.ID)
      (hparse : (c.SpiffeID = "" ∧ spiffeID = spiffeid.ID.zero ∧ pev = []) ∨
        (c.SpiffeID ≠ "" ∧ E.FromString c.SpiffeID = .ok spiffeID ∧
          pev = [.FromString c.SpiffeID none]))
      (p : GoError)
      (hsess : E.NewSession (createSessionConfig c.STSEndpoint c.STSRegion) = .error p) :
      RunPath E c context
        (pre ++ [.NewTelemetry (configuredOpts c context.TelemetryOpts) none] ++ labels
          ++ [.Instrument context.TelemetryOpts.OIDCMetricName]
          ++ pev
          ++ [.JWTSourceProvider spiffeID c.WorkloadSocket c.Audience,
              .NewSession (createSessionConfig c.STSEndpoint c.STSRegion) (some p)]
          ++ [.emitMetrics none, .Close])
        (.panicked p)
  | providerFailed (pre labels pev : List Event) (hpre : ∀ ev ∈ pre, ev.isLogging = true)
      (hlabels : ∀ ev ∈ labels, ev.isAddLabel = true) (t : H.Telemetry)
      (hnew : E.NewTelemetry (configuredOpts c context.TelemetryOpts) = .ok t)
      (spiffeID : spiffeid.ID)
      (hparse : (c.SpiffeID = "" ∧ spiffeID = spiffeid.ID.zero ∧ pev = []) ∨
        (c.SpiffeID ≠ "" ∧ E.FromString c.SpiffeID = .ok spiffeID ∧
          pev = [.FromString c.SpiffeID none]))
      (session : H.Session)
      (hsess : E.NewSession (createSessionConfig c.STSEndpoint c.STSRegion) = .ok session)
      (logger : H.Logger) (err : GoError)
      (hprov : E.NewProvider c.Audience c.RoleARN
        (context.JWTSourceProvider spiffeID c.WorkloadSocket c.Audience logger t)
        c.SessionName c.SessionDuration (context.STSProvider session) t logger = .error err) :
      RunPath E c context
        (pre ++ [.NewTelemetry (configuredOpts c context.TelemetryOpts) none] ++ labels
          ++ [.Instrument context.TelemetryOpts.OIDCMetricName]
          ++ pev
          ++ [.JWTSourceProvider spiffeID c.WorkloadSocket c.Audience,
              .NewSession (createSessionConfig c.STSEndpoint c.STSRegion) none,
              .STSProvider,
              .NewProvider c.Audience c.RoleARN c.SessionName c.SessionDuration (some err)]
          ++ [.emitMetrics (some (GoError.withStack (GoError.withMessage err (Stage.message c .provider)))), .Close])
        (.returned (some (GoError.withStack (GoError.withMessage err (Stage.message c .provider)))))
  | serializeFailed (pre labels pev : List Event) (hpre : ∀ ev ∈ pre, ev.isLogging = true)
      (hlabels : ∀ ev ∈ labels, ev.isAddLabel = true) (t : H.Telemetry)
      (hnew : E.NewTelemetry (configuredOpts c context.TelemetryOpts) = .ok t)
      (spiffeID : spiffeid.ID)
      (hparse : (c.SpiffeID = "" ∧ spiffeID = spiffeid.ID.zero ∧ pev = []) ∨
        (c.SpiffeID ≠ "" ∧ E.FromString c.SpiffeID = .ok spiffeID ∧
          pev = [.FromString c.SpiffeID none]))
      (session : H.Session)
      (hsess : E.NewSession (createSessionConfig c.STSEndpoint c.STSRegion) = .ok session)
      (logger : H.Logger) (provider : H.Provider)
      (hprov : E.NewProvider c.Audience c.RoleARN
        (context.JWTSourceProvider spiffeID c.WorkloadSocket c.Audience logger t)
        c.SessionName c.SessionDuration (context.STSProvider session) t logger = .ok provider)
      (err : GoError) (hser : E.SerializeCredentials provider = .error err) :
      RunPath E c context
        (pre ++ [.NewTelemetry (configuredOpts c context.TelemetryOpts) none] ++ labels
          ++ [.Instrument context.TelemetryOpts.OIDCMetricName]
          ++ pev
          ++ [.JWTSourceProvider spiffeID c.WorkloadSocket c.Audience,
              .NewSession (createSessionConfig c.STSEndpoint c.STSRegion) none,
              .STSProvider,
              .NewProvider c.Audience c.RoleARN c.SessionName c.SessionDuration none,
              .SerializeCredentials (.error err)]
          ++ [.emitMetrics (some (GoError.withStack (GoError.withMessage err (Stage.message c .serialize)))), .Close])
        (.returned (some (GoError.withStack (GoError.withMessage err (Stage.message c .serialize)))))
  | printed (pre labels pev : List Event) (hpre : ∀ ev ∈ pre, ev.isLogging = true)
      (hlabels : ∀ ev ∈ labels, ev.isAddLabel = true) (t : H.Telemetry)
      (hnew : E.NewTelemetry (configuredOpts c context.TelemetryOpts) = .ok t)
      (spiffeID : spiffeid.ID)
      (hparse : (c.SpiffeID = "" ∧ spiffeID = spiffeid.ID.zero ∧ pev = []) ∨
        (c.SpiffeID ≠ "" ∧ E.FromString c.SpiffeID = .ok spiffeID ∧
          pev = [.FromString c.SpiffeID none]))
      (session : H.Session)
      (hsess : E.NewSession (createSessionConfig c.STSEndpoint c.STSRegion) = .ok session)
      (logger : H.Logger) (provider : H.Provider)
      (hprov : E.NewProvider c.Audience c.RoleARN
        (context.JWTSourceProvider spiffeID c.WorkloadSocket c.Audience logger t)
        c.SessionName c.SessionDuration (context.STSProvider session) t logger = .ok provider)
      (creds : Bytes) (hser : E.SerializeCredentials provider = .ok creds) :
      RunPath E c context
        (pre ++ [.NewTelemetry (configuredOpts c context.TelemetryOpts) none] ++ labels
          ++ [.Instrument context.TelemetryOpts.OIDCMetricName]
          ++ pev
          ++ [.JWTSourceProvider spiffeID c.WorkloadSocket c.Audience,
              .NewSession (createSessionConfig c.STSEndpoint c.STSRegion) none,
              .STSProvider,
              .NewProvider c.Audience c.RoleARN c.SessionName c.SessionDuration none,
              .SerializeCredentials (.ok creds),
              .Print creds (E.Print creds)]
          ++ [.emitMetrics (E.Print creds), .Close])
        (.returned (E.Print creds))

/-- Whether the call is neither logging setup nor a `t.AddLabel`. -/
def Event.isCore (ev : Event) : Bool := !(ev.isLogging || ev.isAddLabel)

/-- The trace without the calls of logging setup and the `t.AddLabel` calls. -/
def core (tr : List Event) : List Event := tr.filter Event.isCore

/-- The paths through `Run` again, each with the core of its trace written
out. -/
inductive CorePath {H : Handles} (E : Externals H) (c : CredentialsCmd) (context : CliContext H) :
    List Event → Outcome → Prop where
  | fatal : CorePath E c context [] (.exited 1)
  | telemetryFailed (err : GoError)
      (hnew : E.NewTelemetry (configuredOpts c context.TelemetryOpts) = .error err) :
      CorePath E c context
        [.NewTelemetry (configuredOpts c context.TelemetryOpts) (some err)]
        (.returned (some (GoError.withStack (GoError.withMessage err (Stage.message c .telemetry)))))
  | parseFailed (t : H.Telemetry)
      (hnew : E.NewTelemetry (configuredOpts c context.TelemetryOpts) = .ok t)
      (err : GoError) (hne : c.SpiffeID ≠ "") (hparse : E.FromString c.SpiffeID = .error err) :
      CorePath E c context
        ([.NewTelemetry (configuredOpts c context.TelemetryOpts) none,
            .Instrument context.TelemetryOpts.OIDCMetricName]
          ++ [.FromString c.SpiffeID (some err)]
          ++ [.emitMetrics (some (GoError.withStack (GoError.withMessage err (Stage.message c .spiffeID)))), .Close])
        (.returned (some (GoError.withStack (GoError.withMessage err (Stage.message c .spiffeID)))))
  | sessionPanicked (pev : List Event) (t : H.Telemetry)
      (hnew : E.NewTelemetry (configuredOpts c context.TelemetryOpts) = .ok t)
      (spiffeID : spiffeid.ID)
      (hparse : (c.SpiffeID = "" ∧ spiffeID = spiffeid.ID.zero ∧ pev = []) ∨
        (c.SpiffeID ≠ "" ∧ E.FromString c.SpiffeID = .ok spiffeID ∧
          pev = [.FromString c.SpiffeID none]))
      (p : GoError)
      (hsess : E.NewSession (createSessionConfig c.STSEndpoint c.STSRegion) = .error p) :
      CorePath E c context
        ([.NewTelemetry (configuredOpts c context.TelemetryOpts) none,
            .Instrument context.TelemetryOpts.OIDCMetricName]
          ++ pev
          ++ [.JWTSourceProvider spiffeID c.WorkloadSocket c.Audience,
              .NewSession (createSessionConfig c.STSEndpoint c.STSRegion) (some p)]
          ++ [.emitMetrics none, .Close])
        (.panicked p)
  | providerFailed (pev : List Event) (t : H.Telemetry)
      (hnew : E.NewTelemetry (configuredOpts c context.TelemetryOpts) = .ok t)
      (spiffeID : spiffeid.ID)
      (hparse : (c.SpiffeID = "" ∧ spiffeID = spiffeid.ID.zero ∧ pev = []) ∨
        (c.SpiffeID ≠ "" ∧ E.FromString c.SpiffeID = .ok spiffeID ∧
          pev = [.FromString c.SpiffeID none]))
      (session : H.Session)
      (hsess : E.NewSession (createSessionConfig c.STSEndpoint c.STSRegion) = .ok session)
      (logger : H.Logger) (err : GoError)
      (hprov : E.NewProvider c.Audience c.RoleARN
        (context.JWTSourceProvider spiffeID c.WorkloadSocket c.Audience logger t)
        c.SessionName c.SessionDuration (context.STSProvider session) t logger = .error err) :
      CorePath E c context
        ([.NewTelemetry (configuredOpts c context.TelemetryOpts) none,
            .Instrument context.TelemetryOpts.OIDCMetricName]
          ++ pev
          ++ [.JWTSourceProvider spiffeID c.WorkloadSocket c.Audience,
              .NewSession (createSessionConfig c.STSEndpoint c.STSRegion) none,
              .STSProvider,
              .NewProvider c.Audience c.RoleARN c.SessionName c.SessionDuration (some err)]
          ++ [.emitMetrics (some (GoError.withStack (GoError.withMessage err (Stage.message c .provider)))), .Close])
        (.returned (some (GoError.withStack (GoError.withMessage err (Stage.message c .provider)))))
  | serializeFailed (pev : List Event) (t : H.Telemetry)
      (hnew : E.NewTelemetry (configuredOpts c context.TelemetryOpts) = .ok t)
      (spiffeID : spiffeid.ID)
      (hparse : (c.SpiffeID = "" ∧ spiffeID = spiffeid.ID.zero ∧ pev = []) ∨
        (c.SpiffeID ≠ "" ∧ E.FromString c.SpiffeID = .ok spiffeID ∧
          pev = [.FromString c.SpiffeID none]))
      (session : H.Session)
      (hsess : E.NewSession (createSessionConfig c.STSEndpoint c.STSRegion) = .ok session)
      (logger : H.Logger) (provider : H.Provider)
      (hprov : E.NewProvider c.Audience c.RoleARN
        (context.JWTSourceProvider spiffeID c.WorkloadSocket c.Audience logger t)
        c.SessionName c.SessionDuration (context.STSProvider session) t logger = .ok provider)
      (err : GoError) (hser : E.SerializeCredentials provider = .error err) :
      CorePath E c context
        ([.NewTelemetry (configuredOpts c context.TelemetryOpts) none,
            .Instrument context.TelemetryOpts.OIDCMetricName]
          ++ pev
          ++ [.JWTSourceProvider spiffeID c.WorkloadSocket c.Audience,
              .NewSession (createSessionConfig c.STSEndpoint c.STSRegion) none,
              .STSProvider,
              .NewProvider c.Audience c.RoleARN c.SessionName c.SessionDuration none,
              .SerializeCredentials (.error err)]
          ++ [.emitMetrics (some (GoError.withStack (GoError.withMessage err (Stage.message c .serialize)))), .Close])
        (.returned (some (GoError.withStack (GoError.withMessage err (Stage.message c .serialize)))))
  | printed (pev : List Event) (t : H.Telemetry)
      (hnew : E.NewTelemetry (configuredOpts c context.TelemetryOpts) = .ok t)
      (spiffeID : spiffeid.ID)
      (hparse : (c.SpiffeID = "" ∧ spiffeID = spiffeid.ID.zero ∧ pev = []) ∨
        (c.SpiffeID ≠ "" ∧ E.FromString c.SpiffeID = .ok spiffeID ∧
          pev = [.FromString c.SpiffeID none]))
      (session : H.Session)
      (hsess : E.NewSession (createSessionConfig c.STSEndpoint c.STSRegion) = .ok session)
      (logger : H.Logger) (provider : H.Provider)
      (hprov : E.NewProvider c.Audience c.RoleARN
        (context.JWTSourceProvider spiffeID c.WorkloadSocket c.Audience logger t)
        c.SessionName c.SessionDuration (context.STSProvider session) t logger = .ok provider)
      (creds : Bytes) (hser : E.SerializeCredentials provider = .ok creds) :
      CorePath E c context
        ([.NewTelemetry (configuredOpts c context.TelemetryOpts) none,
            .Instrument context.TelemetryOpts.OIDCMetricName]
          ++ pev
          ++ [.JWTSourceProvider spiffeID c.WorkloadSocket c.Audience,
              .NewSession (createSessionConfig c.STSEndpoint c.STSRegion) none,
              .STSProvider,
              .NewProvider c.Audience c.RoleARN c.SessionName c.SessionDuration none,
              .SerializeCredentials (.ok creds),
              .Print creds (E.Print creds)]
          ++ [.emitMetrics (E.Print creds), .Close])
        (.returned (E.Print creds))

/-! ## Provider construction, from the specification -/

namespace credentials

/-- Modelled from the spec: the error kind `ConfigurationError` of the error
taxonomy, "bad input, never retried, fails the invocation immediately".
Package `credentials` is not among the sources. -/
def ConfigurationError (detail : String) : GoError :=
  .root ("ConfigurationError: " ++ detail)

/-- Modelled from the spec: `credentials.NewProvider`, whose package is not
among the sources. "Construction fails (`ConfigurationError`) if role ARN or
audience is empty or session duration is outside allowed bounds"; otherwise
the provider is built from the configuration "it was constructed with". The
bounds and the provider value `build` makes of the arguments are
parameters. -/
def NewProvider {H : Handles} (minDuration maxDuration : Int)
    (build : String → String → H.JWTSource → String → Int → H.STSClient → H.Telemetry →
      H.Logger → H.Provider)
    (audience roleARN : String) (src : H.JWTSource) (sessionName : String)
    (sessionDuration : Int) (stsClient : H.STSClient) (t : H.Telemetry) (logger : H.Logger) :
    Except GoError H.Provider :=
  if roleARN = "" then .error (ConfigurationError "role ARN is empty")
  else if audience = "" then .error (ConfigurationError "audience is empty")
  else if sessionDuration < minDuration ∨ maxDuration < sessionDuration then
    .error (ConfigurationError "session duration is out of bounds")
  else .ok (build audience roleARN src sessionName sessionDuration stsClient t logger)

end credentials

/-! ## Sample invocations -/

/-- Handles as numbers; log files and Sentry hooks carry nothing. -/
abbrev sampleHandles : Handles :=
  { File := Unit, Hook := Unit, Telemetry := Nat, JWTSource := Nat, Session := Nat,
    STSClient := Nat, Provider := Nat }

/-- A command naming a workload, a role and a region. -/
def sampleCmd : CredentialsCmd :=
  { Audience := "sts.amazonaws.com"
    SpiffeID := "spiffe://example.org/workload"
    WorkloadSocket := "/run/spire/agent.sock"
    RoleARN := "arn:aws:iam::123456789012:role/example"
    SessionName := "example"
    STSEndpoint := ""
    STSRegion := "us-west-2"
    SessionDuration := 900000000000
    LogFilePath := ""
    TelemetrySocket := "127.0.0.1:8200"
    TelemetryName := ""
    TelemetryServiceAsLabel := false
    SentryDSN := ""
    Debug := false }

/-- Collaborators that all succeed; `spiffeid.FromString` accepts the one ID
of `sampleCmd`. -/
def sampleExternals : Externals sampleHandles :=
  { OpenFile := fun _ _ _ => .ok ()
    NewSentryHook := fun _ _ => .ok ()
    NewTelemetry := fun _ => .ok 1
    FromString := fun s =>
      if s = "spiffe://example.org/workload" then .ok { td := "example.org", path := "/workload" }
      else .error (.root "scheme is missing or invalid")
    NewSession := fun _ => .ok 2
    NewProvider := fun _ _ _ _ _ _ _ _ => .ok 3
    SerializeCredentials := fun _ => .ok [86, 49]
    Print := fun _ => none }

/-- A context with default telemetry options and one label. -/
def sampleContext : CliContext sampleHandles :=
  { JWTSourceProvider := fun _ _ _ _ _ => 4
    STSProvider := fun _ => 5
    Logger := { Out := [.Stderr], Level := .InfoLevel, Hooks := [] }
    Telemetry := none
    TelemetryOpts :=
      { Socket := ""
        ServiceName := "spiffe-aws-assume-role"
        ServiceAsLabel := false
        Labels := [("env", "test")]
        OIDCMetricName := ["oidc"] } }

/-- Collaborators as in `sampleExternals`, but the telemetry socket cannot
be reached. -/
def telemetryDown : Externals sampleHandles :=
  { sampleExternals with
    NewTelemetry := fun _ => .error (.root "dial unix: connect: no such file or directory") }

/-- Collaborators as in `sampleExternals`, but serialization fails. -/
def serializerFails : Externals sampleHandles :=
  { sampleExternals with
    SerializeCredentials := fun _ => .error (.root "AccessDenied") }

/-- The sample command with a SPIFFE ID that `spiffeid.FromString` rejects. -/
def badIDCmd : CredentialsCmd := { sampleCmd with SpiffeID := "example.org/workload" }

/-- The sample command without a SPIFFE ID. -/
def noIDCmd : CredentialsCmd := { sampleCmd with SpiffeID := "" }

/-- Collaborators as in `sampleExternals`, with provider construction as the
specification describes it, for sessions of 15 minutes to 12 hours. -/
def validatingExternals : Externals sampleHandles :=
  { sampleExternals with
    NewProvider := credentials.NewProvider 900000000000 43200000000000
      (fun _ _ _ _ _ _ _ _ => 3) }

/-- The sample command without a role ARN. -/
def noRoleCmd : CredentialsCmd := { sampleCmd with RoleARN := "" }

set_option maxRecDepth 100000

section Paths

variable {H : Handles}

theorem configureLogger_events (E : Externals H) (c : CredentialsCmd) (logger : H.Logger) :
    ∀ ev ∈ (configureLogger E c logger).2, ev.isLogging = true := by
  intro ev hev
  unfold configureLogger at hev
  split_ifs at hev <;> (try split at hev) <;> simp at hev <;>
    (try rcases hev with rfl | rfl) <;> rfl

theorem configureSentry_events (E : Externals H) (c : CredentialsCmd) (logger : H.Logger) :
    ∀ ev ∈ (configureSentry E c logger).2, ev.isLogging = true := by
  intro ev hev
  unfold configureSentry at hev
  split_ifs at hev <;> (try split at hev) <;> simp at hev <;>
    (try rcases hev with rfl | rfl) <;> rfl

theorem configuredOpts_OIDCMetricName (c : CredentialsCmd) (opts : telemetry.TelemetryOpts) :
    (configuredOpts c opts).OIDCMetricName = opts.OIDCMetricName := by
  unfold configuredOpts
  split_ifs <;> rfl

theorem parseSpiffeID_cases (E : Externals H) (c : CredentialsCmd) :
    (∃ err, c.SpiffeID ≠ "" ∧ E.FromString c.SpiffeID = .error err ∧
      parseSpiffeID E c = (.error err, [.FromString c.SpiffeID (some err)])) ∨
    (∃ spiffeID pev,
      ((c.SpiffeID = "" ∧ spiffeID = spiffeid.ID.zero ∧ pev = []) ∨
        (c.SpiffeID ≠ "" ∧ E.FromString c.SpiffeID = .ok spiffeID ∧
          pev = [.FromString c.SpiffeID none])) ∧
      parseSpiffeID E c = (.ok spiffeID, pev)) := by
  unfold parseSpiffeID
  by_cases hne : c.SpiffeID = ""
  · right
    exact ⟨spiffeid.ID.zero, [], Or.inl ⟨hne, rfl, rfl⟩, by simp [hne]⟩
  · cases hparse : E.FromString c.SpiffeID with
    | error err =>
      left
      exact ⟨err, hne, rfl, by simp [hne]⟩
    | ok spiffeID =>
      right
      exact ⟨spiffeID, _, Or.inr ⟨hne, rfl, rfl⟩, by simp [hne]⟩

theorem Run_path (E : Externals H) (c : CredentialsCmd) (context : CliContext H) :
    RunPath E c context (Run E c context).trace (Run E c context).outcome := by
  have hlog := configureLogger_events E c context.Logger
  have hsen := configureSentry_events E c (configureLogger E c context.Logger).1
  have hpre : ∀ ev ∈ (configureLogger E c context.Logger).2
      ++ (configureSentry E c (configureLogger E c context.Logger).1).2,
      ev.isLogging = true := by
    intro ev hev
    rcases List.mem_append.1 hev with h | h
    · exact hlog ev h
    · exact hsen ev h
  unfold Run
  simp only
  generalize configureLogger E c context.Logger = lg at hpre
  generalize hs : configureSentry E c lg.1 = sen at hpre
  obtain ⟨slog, ev2⟩ := sen
  cases slog with
  | none => exact RunPath.fatal _ hpre
  | some logger =>
    simp only [configureTelemetry]
    cases hnew : E.NewTelemetry (configuredOpts c context.TelemetryOpts) with
    | error err =>
      simp only [errors.Wrap, fmt.Sprintf]
      exact RunPath.telemetryFailed _ hpre err hnew
    | ok t =>
      simp only [emitMetrics, configuredOpts_OIDCMetricName]
      generalize hlab : ((if len c.STSRegion > 0 then [Event.AddLabel "stsRegion" c.STSRegion]
          else []) ++ List.map (fun kv => Event.AddLabel kv.1 kv.2)
            (configuredOpts c context.TelemetryOpts).Labels) = labels
      have hlabels : ∀ ev ∈ labels, ev.isAddLabel = true := by
        intro ev hev
        rw [← hlab] at hev
        rcases List.mem_append.1 hev with h | h
        · split_ifs at h
          · rw [List.mem_singleton.1 h]; rfl
          · simp at h
        · obtain ⟨kv, _, rfl⟩ := List.mem_map.1 h
          rfl
      have hassoc : ∀ rest : List Event,
          lg.2 ++ ev2 ++ (([Event.NewTelemetry (configuredOpts c context.TelemetryOpts) none] ++
            if len c.STSRegion > 0 then [Event.AddLabel "stsRegion" c.STSRegion] else []) ++
            List.map (fun kv => Event.AddLabel kv.1 kv.2)
              (configuredOpts c context.TelemetryOpts).Labels) ++ rest
          = (lg.2 ++ ev2) ++ [Event.NewTelemetry (configuredOpts c context.TelemetryOpts) none]
              ++ labels ++ rest := by
        intro rest
        rw [← hlab]
        simp only [List.append_assoc]
      simp only [List.append_assoc] at hassoc ⊢
      rw [hassoc]
      simp only [runBody, createSession]
      rcases parseSpiffeID_cases E c with ⟨err, hne, hparse, hp⟩ | ⟨spiffeID, pev, hparse, hp⟩
      · rw [hp]
        simpa [errors.Wrap, fmt.Sprintf, Outcome.ofExit, Stage.message] using
          RunPath.parseFailed (lg.2 ++ ev2) labels hpre hlabels t hnew err hne hparse
      · rw [hp]
        simp only
        cases hsess : E.NewSession (createSessionConfig c.STSEndpoint c.STSRegion) with
        | error p =>
          simpa [Outcome.ofExit] using
            RunPath.sessionPanicked (lg.2 ++ ev2) labels pev hpre hlabels t hnew spiffeID hparse
              p hsess
        | ok session =>
          simp only
          cases hprov : E.NewProvider c.Audience c.RoleARN
              (context.JWTSourceProvider spiffeID c.WorkloadSocket c.Audience logger t)
              c.SessionName c.SessionDuration (context.STSProvider session) t logger with
          | error err =>
            simpa [errors.Wrap, Outcome.ofExit, Stage.message] using
              RunPath.providerFailed (lg.2 ++ ev2) labels pev hpre hlabels t hnew spiffeID
                hparse session hsess logger err hprov
          | ok provider =>
            simp only
            cases hser : E.SerializeCredentials provider with
            | error err =>
              simpa [errors.Wrap, Outcome.ofExit, Stage.message] using
                RunPath.serializeFailed (lg.2 ++ ev2) labels pev hpre hlabels t hnew spiffeID
                  hparse session hsess logger provider hprov err hser
            | ok creds =>
              simpa [Outcome.ofExit] using
                RunPath.printed (lg.2 ++ ev2) labels pev hpre hlabels t hnew spiffeID
                  hparse session hsess logger provider hprov creds hser

theorem mem_core {tr : List Event} {ev : Event} :
    ev ∈ core tr ↔ ev ∈ tr ∧ ev.isCore = true := by
  unfold core
  exact List.mem_filter

theorem core_eq_nil_of_isLogging {l : List Event} (h : ∀ ev ∈ l, ev.isLogging = true) :
    core l = [] := by
  unfold core
  rw [List.filter_eq_nil_iff]
  intro ev hev
  simp [Event.isCore, h ev hev]

theorem core_eq_nil_of_isAddLabel {l : List Event} (h : ∀ ev ∈ l, ev.isAddLabel = true) :
    core l = [] := by
  unfold core
  rw [List.filter_eq_nil_iff]
  intro ev hev
  simp [Event.isCore, h ev hev]

theorem core_append (l₁ l₂ : List Event) : core (l₁ ++ l₂) = core l₁ ++ core l₂ := by
  unfold core
  exact List.filter_append l₁ l₂

theorem stdoutWrites_core (tr : List Event) : stdoutWrites (core tr) = stdoutWrites tr := by
  induction tr with
  | nil => rfl
  | cons ev tr ih =>
    cases ev <;>
      simp_all [core, stdoutWrites, List.filter_cons, Event.isCore, Event.isLogging,
        Event.isAddLabel]

theorem Run_core (E : Externals H) (c : CredentialsCmd) (context : CliContext H) :
    CorePath E c context (core (Run E c context).trace) (Run E c context).outcome := by
  have hp := Run_path E c context
  generalize (Run E c context).trace = tr at hp
  generalize (Run E c context).outcome = o at hp
  cases hp with
  | fatal pre hpre =>
    rw [core_eq_nil_of_isLogging hpre]
    exact CorePath.fatal
  | telemetryFailed pre hpre err hnew =>
    rw [core_append, core_eq_nil_of_isLogging hpre]
    exact CorePath.telemetryFailed err hnew
  | parseFailed pre labels hpre hlabels t hnew err hne hparse =>
    simp only [core_append, core_eq_nil_of_isLogging hpre, core_eq_nil_of_isAddLabel hlabels]
    exact CorePath.parseFailed t hnew err hne hparse
  | sessionPanicked pre labels pev hpre hlabels t hnew spiffeID hparse p hsess =>
    have hpev : core pev = pev := by
      rcases hparse with ⟨_, _, rfl⟩ | ⟨_, _, rfl⟩ <;> rfl
    simp only [core_append, core_eq_nil_of_isLogging hpre, core_eq_nil_of_isAddLabel hlabels,
      hpev]
    exact CorePath.sessionPanicked pev t hnew spiffeID hparse p hsess
  | providerFailed pre labels pev hpre hlabels t hnew spiffeID hparse session hsess logger err
      hprov =>
    have hpev : core pev = pev := by
      rcases hparse with ⟨_, _, rfl⟩ | ⟨_, _, rfl⟩ <;> rfl
    simp only [core_append, core_eq_nil_of_isLogging hpre, core_eq_nil_of_isAddLabel hlabels,
      hpev]
    exact CorePath.providerFailed pev t hnew spiffeID hparse session hsess logger err hprov
  | serializeFailed pre labels pev hpre hlabels t hnew spiffeID hparse session hsess logger
      provider hprov err hser =>
    have hpev : core pev = pev := by
      rcases hparse with ⟨_, _, rfl⟩ | ⟨_, _, rfl⟩ <;> rfl
    simp only [core_append, core_eq_nil_of_isLogging hpre, core_eq_nil_of_isAddLabel hlabels,
      hpev]
    exact CorePath.serializeFailed pev t hnew spiffeID hparse session hsess logger provider
      hprov err hser
  | printed pre labels pev hpre hlabels t hnew spiffeID hparse session hsess logger provider
      hprov creds hser =>
    have hpev : core pev = pev := by
      rcases hparse with ⟨_, _, rfl⟩ | ⟨_, _, rfl⟩ <;> rfl
    simp only [core_append, core_eq_nil_of_isLogging hpre, core_eq_nil_of_isAddLabel hlabels,
      hpev]
    exact CorePath.printed pev t hnew spiffeID hparse session hsess logger provider hprov
      creds hser

theorem forall_mem_of_core {tr : List Event} {P : Event → Prop}
    (hP : ∀ ev, ev.isCore = false → P ev) (h : ∀ ev ∈ core tr, P ev) : ∀ ev ∈ tr, P ev := by
  intro ev hev
  cases hcore : ev.isCore with
  | false => exact hP ev hcore
  | true => exact h ev (mem_core.2 ⟨hev, hcore⟩)

theorem exists_mem_core {tr : List Event} {P : Event → Prop}
    (hP : ∀ ev, P ev → ev.isCore = true) (h : ∃ ev ∈ tr, P ev) : ∃ ev ∈ core tr, P ev := by
  obtain ⟨ev, hev, hpev⟩ := h
  exact ⟨ev, mem_core.2 ⟨hev, hP ev hpev⟩, hpev⟩

theorem isCore_of_stageFailure (ev : Event) (h : ev.stageFailure.isSome = true) :
    ev.isCore = true := by
  cases ev <;> simp_all [Event.stageFailure, Event.isCore, Event.isLogging, Event.isAddLabel]

theorem isPrint_of_not_isCore (ev : Event) (h : ev.isCore = false) : ev.isPrint = false := by
  cases ev <;> simp_all [Event.isPrint, Event.isCore, Event.isLogging, Event.isAddLabel]

theorem CorePath.stage_failure_no_print {E : Externals H} {c : CredentialsCmd}
    {context : CliContext H} {k : List Event} {o : Outcome} (hc : CorePath E c context k o)
    (h : ∃ ev ∈ k, ev.stageFailure.isSome = true) :
    (∃ err, o = .returned (some err)) ∧ stdoutWrites k = [] ∧
    ∀ ev ∈ k, ev.isPrint = false := by
  cases hc with
  | fatal => simp at h
  | telemetryFailed err hnew => simp [stdoutWrites, Event.isPrint]
  | parseFailed t hnew err hne hparse => simp [stdoutWrites, Event.isPrint]
  | sessionPanicked pev t hnew spiffeID hparse p hsess =>
    rcases hparse with ⟨_, _, rfl⟩ | ⟨_, _, rfl⟩ <;> simp [Event.stageFailure] at h
  | providerFailed pev t hnew spiffeID hparse session hsess logger err hprov =>
    rcases hparse with ⟨_, _, rfl⟩ | ⟨_, _, rfl⟩ <;> simp [stdoutWrites, Event.isPrint]
  | serializeFailed pev t hnew spiffeID hparse session hsess logger provider hprov err hser =>
    rcases hparse with ⟨_, _, rfl⟩ | ⟨_, _, rfl⟩ <;> simp [stdoutWrites, Event.isPrint]
  | printed pev t hnew spiffeID hparse session hsess logger provider hprov creds hser =>
    rcases hparse with ⟨_, _, rfl⟩ | ⟨_, _, rfl⟩ <;> simp [Event.stageFailure] at h

/-- C1: when a stage before printing fails in an invocation of `Run`, that
is, when the call of telemetry configuration, SPIFFE ID parsing, provider
construction or credential serialization made in it returns an error, `Run`
returns a non-nil error and nothing is written to standard output:
`fmt.Print` is not called. -/
theorem Run_failed_stage_returns_error_and_prints_nothing (E : Externals H)
    (c : CredentialsCmd) (context : CliContext H)
    (h : ∃ ev ∈ (Run E c context).trace, ev.stageFailure.isSome = true) :
    (∃ err, (Run E c context).outcome = .returned (some err)) ∧
    stdoutWrites (Run E c context).trace = [] ∧
    ∀ ev ∈ (Run E c context).trace, ev.isPrint = false := by
  have hcore : ∃ ev ∈ core (Run E c context).trace, ev.stageFailure.isSome = true :=
    exists_mem_core isCore_of_stageFailure h
  obtain ⟨hret, hout, hprint⟩ := (Run_core E c context).stage_failure_no_print hcore
  refine ⟨hret, ?_, forall_mem_of_core isPrint_of_not_isCore hprint⟩
  rw [← stdoutWrites_core]
  exact hout

/-- C1 at a sample invocation in which serialization fails. -/
theorem Run_failed_stage_returns_error_and_prints_nothing_witness :
    (∃ ev ∈ (Run serializerFails sampleCmd sampleContext).trace,
      ev.stageFailure.isSome = true) ∧
    (∃ err, (Run serializerFails sampleCmd sampleContext).outcome = .returned (some err)) ∧
    stdoutWrites (Run serializerFails sampleCmd sampleContext).trace = [] ∧
    ∀ ev ∈ (Run serializerFails sampleCmd sampleContext).trace, ev.isPrint = false :=
  ⟨by decide,
    Run_failed_stage_returns_error_and_prints_nothing serializerFails sampleCmd sampleContext
      (by decide)⟩

theorem isCore_of_isSerialize (ev : Event) (r : Except GoError Bytes)
    (h : ev = Event.SerializeCredentials r) : ev.isCore = true := by
  subst h
  rfl

/-- C2: when all stages of an invocation of `Run` succeed, that is, no call
of the four stages returns an error and `Run` is left by `return` (neither
`logger.Fatalf` nor `session.Must` took control), `SerializeCredentials` was
called and returned some bytes `creds`, exactly one write to standard output
was made and what it wrote is `creds`, nothing before and nothing after, and
`Run` returns the error of that write: nil when the write succeeds. -/
theorem Run_success_prints_credentials_once (E : Externals H) (c : CredentialsCmd)
    (context : CliContext H)
    (hstages : ∀ ev ∈ (Run E c context).trace, ev.stageFailure = none)
    (hret : ∃ r, (Run E c context).outcome = .returned r) :
    ∃ creds, Event.SerializeCredentials (.ok creds) ∈ (Run E c context).trace ∧
      (∀ r, Event.SerializeCredentials r ∈ (Run E c context).trace → r = .ok creds) ∧
      stdoutWrites (Run E c context).trace = [creds] ∧
      (Run E c context).outcome = .returned (E.Print creds) ∧
      (E.Print creds = none → (Run E c context).outcome = .returned none) := by
  have hstages' : ∀ ev ∈ core (Run E c context).trace, ev.stageFailure = none :=
    fun ev hev => hstages ev (mem_core.1 hev).1
  suffices hs : ∃ creds, Event.SerializeCredentials (.ok creds) ∈ core (Run E c context).trace ∧
      (∀ r, Event.SerializeCredentials r ∈ core (Run E c context).trace → r = .ok creds) ∧
      stdoutWrites (core (Run E c context).trace) = [creds] ∧
      (Run E c context).outcome = .returned (E.Print creds) ∧
      (E.Print creds = none → (Run E c context).outcome = .returned none) by
    obtain ⟨creds, h1, h2, h3, h4, h5⟩ := hs
    exact ⟨creds, (mem_core.1 h1).1,
      fun r hr => h2 r (mem_core.2 ⟨hr, isCore_of_isSerialize _ r rfl⟩),
      (stdoutWrites_core _) ▸ h3, h4, h5⟩
  have hc := Run_core E c context
  generalize core (Run E c context).trace = k at hc hstages' ⊢
  generalize (Run E c context).outcome = o at hc hret ⊢
  obtain ⟨r, hr⟩ := hret
  cases hc with
  | fatal => simp at hr
  | telemetryFailed err hnew =>
    exact absurd (hstages' (.NewTelemetry (configuredOpts c context.TelemetryOpts) (some err))
      (by simp)) (by simp [Event.stageFailure])
  | parseFailed t hnew err hne hparse =>
    exact absurd (hstages' (.FromString c.SpiffeID (some err)) (by simp)) (by simp [Event.stageFailure])
  | sessionPanicked pev t hnew spiffeID hparse p hsess => simp at hr
  | providerFailed pev t hnew spiffeID hparse session hsess logger err hprov =>
    exact absurd (hstages' (.NewProvider c.Audience c.RoleARN c.SessionName c.SessionDuration
      (some err)) (by simp))
      (by simp [Event.stageFailure])
  | serializeFailed pev t hnew spiffeID hparse session hsess logger provider hprov err hser =>
    exact absurd (hstages' (.SerializeCredentials (.error err)) (by simp))
      (by simp [Event.stageFailure])
  | printed pev t hnew spiffeID hparse session hsess logger provider hprov creds hser =>
    refine ⟨creds, ?_, ?_, ?_, rfl, ?_⟩
    · simp
    · rcases hparse with ⟨_, _, rfl⟩ | ⟨_, _, rfl⟩ <;> simp
    · rcases hparse with ⟨_, _, rfl⟩ | ⟨_, _, rfl⟩ <;> simp [stdoutWrites]
    · intro h
      rw [h]

/-- C2 at the sample invocation, in which every collaborator succeeds. -/
theorem Run_success_prints_credentials_once_witness :
    (∀ ev ∈ (Run sampleExternals sampleCmd sampleContext).trace, ev.stageFailure = none) ∧
    (∃ r, (Run sampleExternals sampleCmd sampleContext).outcome = .returned r) ∧
    ∃ creds,
      Event.SerializeCredentials (.ok creds) ∈ (Run sampleExternals sampleCmd sampleContext).trace ∧
      (∀ r, Event.SerializeCredentials r ∈ (Run sampleExternals sampleCmd sampleContext).trace →
        r = .ok creds) ∧
      stdoutWrites (Run sampleExternals sampleCmd sampleContext).trace = [creds] ∧
      (Run sampleExternals sampleCmd sampleContext).outcome
        = .returned (sampleExternals.Print creds) ∧
      (sampleExternals.Print creds = none →
        (Run sampleExternals sampleCmd sampleContext).outcome = .returned none) :=
  ⟨by decide, ⟨none, by decide⟩,
    Run_success_prints_credentials_once sampleExternals sampleCmd sampleContext (by decide)
      ⟨none, by decide⟩⟩

theorem isCollaborator_of_not_isCore (ev : Event) (h : ev.isCore = false) :
    ev.isCollaborator = false := by
  cases ev <;> simp_all [Event.isCollaborator, Event.isCore, Event.isLogging, Event.isAddLabel]

theorem names_withMessage (err : GoError) (head value : String) :
    (GoError.withStack (GoError.withMessage err (head ++ value))).names value := by
  unfold GoError.names
  simp only [GoError.Error, String.data_append]
  exact ⟨head.data, ": ".data ++ err.Error.data, by simp⟩

/-- C3 does not hold as stated: in this invocation the SPIFFE ID is not
empty and `spiffeid.FromString` rejects it, but telemetry configuration
fails first, and the error `Run` returns is the telemetry one, whose message
names the telemetry socket and not the SPIFFE ID. -/
theorem Run_invalid_spiffeID_behind_telemetry_failure :
    badIDCmd.SpiffeID ≠ "" ∧
    telemetryDown.FromString badIDCmd.SpiffeID
      = .error (.root "scheme is missing or invalid") ∧
    (Run telemetryDown badIDCmd sampleContext).outcome
      = .returned (some (.withStack (.withMessage (.root "dial unix: connect: no such file or directory")
          "failed to configure telemetry for socket address 127.0.0.1:8200"))) ∧
    ¬ (GoError.withStack (.withMessage (.root "dial unix: connect: no such file or directory")
        "failed to configure telemetry for socket address 127.0.0.1:8200")).names
        badIDCmd.SpiffeID := by
  refine ⟨by decide, by decide, by decide, by decide⟩

/-- C3, amended: for a SPIFFE ID that is not empty and that
`spiffeid.FromString` rejects, none of `JWTSourceProvider`, `createSession`,
`STSProvider`, `NewProvider` and `SerializeCredentials` is invoked and `Run`
does not succeed; once telemetry has been configured successfully, `Run`
returns the error of `spiffeid.FromString` wrapped in a message that names
the offending value. -/
theorem Run_invalid_spiffeID_fails_fast (E : Externals H) (c : CredentialsCmd)
    (context : CliContext H) (err : GoError) (hne : c.SpiffeID ≠ "")
    (hparse : E.FromString c.SpiffeID = .error err) :
    (∀ ev ∈ (Run E c context).trace, ev.isCollaborator = false) ∧
    (Run E c context).outcome.succeeded = false ∧
    ((∃ opts, Event.NewTelemetry opts none ∈ (Run E c context).trace) →
      (Run E c context).outcome
        = .returned (some (.withStack (.withMessage err
            ("failed to parse SPIFFE ID from " ++ c.SpiffeID)))) ∧
      (GoError.withStack (.withMessage err
        ("failed to parse SPIFFE ID from " ++ c.SpiffeID))).names c.SpiffeID) := by
  suffices hs : (∀ ev ∈ core (Run E c context).trace, ev.isCollaborator = false) ∧
      (Run E c context).outcome.succeeded = false ∧
      ((∃ opts, Event.NewTelemetry opts none ∈ core (Run E c context).trace) →
        (Run E c context).outcome = .returned
          (some (.withStack (.withMessage err
            ("failed to parse SPIFFE ID from " ++ c.SpiffeID))))) by
    refine ⟨forall_mem_of_core isCollaborator_of_not_isCore hs.1, hs.2.1, ?_⟩
    rintro ⟨opts, hopts⟩
    exact ⟨hs.2.2 ⟨opts, mem_core.2 ⟨hopts, rfl⟩⟩, names_withMessage _ _ _⟩
  have hc := Run_core E c context
  generalize core (Run E c context).trace = k at hc ⊢
  generalize (Run E c context).outcome = o at hc ⊢
  cases hc with
  | fatal => simp [Outcome.succeeded]
  | telemetryFailed err' hnew => simp [Outcome.succeeded, Event.isCollaborator]
  | parseFailed t hnew err' hne' hparse' =>
    rw [hparse] at hparse'
    cases hparse'
    simp [Outcome.succeeded, Event.isCollaborator, Stage.message]
  | sessionPanicked pev t hnew spiffeID hparse' p hsess =>
    rcases hparse' with ⟨h, _, _⟩ | ⟨_, h, _⟩
    · exact absurd h hne
    · rw [hparse] at h; cases h
  | providerFailed pev t hnew spiffeID hparse' session hsess logger err' hprov =>
    rcases hparse' with ⟨h, _, _⟩ | ⟨_, h, _⟩
    · exact absurd h hne
    · rw [hparse] at h; cases h
  | serializeFailed pev t hnew spiffeID hparse' session hsess logger provider hprov err' hser =>
    rcases hparse' with ⟨h, _, _⟩ | ⟨_, h, _⟩
    · exact absurd h hne
    · rw [hparse] at h; cases h
  | printed pev t hnew spiffeID hparse' session hsess logger provider hprov creds hser =>
    rcases hparse' with ⟨h, _, _⟩ | ⟨_, h, _⟩
    · exact absurd h hne
    · rw [hparse] at h; cases h

/-- C3, amended, at a sample invocation in which telemetry is configured and
the SPIFFE ID lacks its scheme. -/
theorem Run_invalid_spiffeID_fails_fast_witness :
    badIDCmd.SpiffeID ≠ "" ∧
    (∃ opts, Event.NewTelemetry opts none ∈ (Run sampleExternals badIDCmd sampleContext).trace) ∧
    (∀ ev ∈ (Run sampleExternals badIDCmd sampleContext).trace, ev.isCollaborator = false) ∧
    (Run sampleExternals badIDCmd sampleContext).outcome
      = .returned (some (.withStack (.withMessage (.root "scheme is missing or invalid")
          "failed to parse SPIFFE ID from example.org/workload"))) :=
  have h := Run_invalid_spiffeID_fails_fast sampleExternals badIDCmd sampleContext
    (.root "scheme is missing or invalid") (by decide) (by decide)
  have ht : ∃ opts, Event.NewTelemetry opts none ∈
      (Run sampleExternals badIDCmd sampleContext).trace :=
    ⟨configuredOpts badIDCmd sampleContext.TelemetryOpts, by decide⟩
  ⟨by decide, ht, h.1, (h.2.2 ht).1⟩

theorem mem_core_of_isCore (tr : List Event) (ev : Event) (h : ev.isCore = true) :
    ev ∈ core tr ↔ ev ∈ tr := by
  rw [mem_core]
  exact ⟨fun hh => hh.1, fun hh => ⟨hh, h⟩⟩

theorem Stage.message_injective (c₁ c₂ : CredentialsCmd) (st₁ st₂ : Stage)
    (h : st₁.message c₁ = st₂.message c₂) : st₁ = st₂ := by
  cases st₁ <;> cases st₂ <;> first
    | rfl
    | (exfalso
       have h2 := congrArg String.data h
       simp only [Stage.message, String.data_append] at h2
       have h3 := congrArg (fun l => l.get? 10) h2
       simp at h3)

theorem Run_stage_failure_outcome (E : Externals H) (c : CredentialsCmd)
    (context : CliContext H) (st : Stage) (err : GoError)
    (h : ∃ ev ∈ (Run E c context).trace, ev.stageFailure = some (st, err)) :
    (Run E c context).outcome
      = .returned (some (.withStack (.withMessage err (st.message c)))) := by
  have h' : ∃ ev ∈ core (Run E c context).trace, ev.stageFailure = some (st, err) :=
    exists_mem_core (fun ev hev => isCore_of_stageFailure ev (by simp [hev])) h
  have hc := Run_core E c context
  generalize core (Run E c context).trace = k at hc h' ⊢
  generalize (Run E c context).outcome = o at hc ⊢
  have h'' : (st, err) ∈ k.filterMap Event.stageFailure := List.mem_filterMap.2 h'
  clear h'
  cases hc with
  | fatal => simp at h''
  | telemetryFailed err' hnew =>
    simp only [List.filterMap_cons, Event.stageFailure, List.filterMap_nil, List.mem_singleton,
      Prod.mk.injEq] at h''
    obtain ⟨rfl, rfl⟩ := h''
    rfl
  | parseFailed t hnew err' hne hparse =>
    simp only [List.filterMap_append, List.filterMap_cons, Event.stageFailure,
      List.filterMap_nil, List.nil_append, List.append_nil, List.mem_singleton,
      Prod.mk.injEq] at h''
    obtain ⟨rfl, rfl⟩ := h''
    rfl
  | sessionPanicked pev t hnew spiffeID hparse p hsess =>
    rcases hparse with ⟨_, _, rfl⟩ | ⟨_, _, rfl⟩ <;>
      simp [List.filterMap_append, List.filterMap_cons, Event.stageFailure] at h''
  | providerFailed pev t hnew spiffeID hparse session hsess logger err' hprov =>
    rcases hparse with ⟨_, _, rfl⟩ | ⟨_, _, rfl⟩ <;>
      simp only [List.filterMap_append, List.filterMap_cons, Event.stageFailure,
        List.filterMap_nil, List.nil_append, List.append_nil, List.mem_singleton,
        Prod.mk.injEq] at h'' <;>
      (obtain ⟨rfl, rfl⟩ := h''; rfl)
  | serializeFailed pev t hnew spiffeID hparse session hsess logger provider hprov err' hser =>
    rcases hparse with ⟨_, _, rfl⟩ | ⟨_, _, rfl⟩ <;>
      simp only [List.filterMap_append, List.filterMap_cons, Event.stageFailure,
        List.filterMap_nil, List.nil_append, List.append_nil, List.mem_singleton,
        Prod.mk.injEq] at h'' <;>
      (obtain ⟨rfl, rfl⟩ := h''; rfl)
  | printed pev t hnew spiffeID hparse session hsess logger provider hprov creds hser =>
    rcases hparse with ⟨_, _, rfl⟩ | ⟨_, _, rfl⟩ <;>
      simp [List.filterMap_append, List.filterMap_cons, Event.stageFailure] at h''

theorem errors.Cause_step (err : GoError) :
    errors.Cause err = (match err.Cause with
      | none => err
      | some cause => errors.Cause cause) := by
  cases err <;> simp only [errors.Cause, GoError.Cause]

theorem errors.Cause_Wrap (err : GoError) (message : String) :
    errors.Cause (GoError.withStack (GoError.withMessage err message)) = errors.Cause err := by
  simp only [errors.Cause]

/-- C5: no stage error is swallowed. When the call of telemetry
configuration, SPIFFE ID parsing, provider construction or credential
serialization made in an invocation of `Run` returns the error `err`, `Run`
returns what `errors.Wrap` makes of `err` and the context message of that
stage: a stack layer around a message layer whose cause is `err`. So two
steps of `Cause()` from the returned error give `err`, `errors.Cause` of the
returned error is `errors.Cause` of `err`, and its message is the context
message, a colon and the message of `err`. The context messages of two
different stages differ, whatever the fields of the command, so the returned
error determines the failing stage and the original error: two invocations
that return the same error failed in the same stage with the same cause. -/
theorem Run_stage_error_wrapped_with_stage_message (E : Externals H) (c : CredentialsCmd)
    (context : CliContext H) :
    (∀ st err, (∃ ev ∈ (Run E c context).trace, ev.stageFailure = some (st, err)) →
      ∃ ret, (Run E c context).outcome = .returned (some ret) ∧
        some ret = errors.Wrap (some err) (st.message c) ∧
        ret.Cause.bind GoError.Cause = some err ∧
        errors.Cause ret = errors.Cause err ∧
        ret.Error = st.message c ++ ": " ++ err.Error) ∧
    (∀ (c₁ c₂ : CredentialsCmd) (st₁ st₂ : Stage),
      st₁.message c₁ = st₂.message c₂ → st₁ = st₂) ∧
    (∀ (E' : Externals H) (c' : CredentialsCmd) (context' : CliContext H) st st' err err',
      (∃ ev ∈ (Run E c context).trace, ev.stageFailure = some (st, err)) →
      (∃ ev ∈ (Run E' c' context').trace, ev.stageFailure = some (st', err')) →
      (Run E c context).outcome = (Run E' c' context').outcome →
      st = st' ∧ err = err') := by
  refine ⟨fun st err h => ⟨_, Run_stage_failure_outcome E c context st err h, rfl, rfl,
    errors.Cause_Wrap _ _, rfl⟩, Stage.message_injective, ?_⟩
  intro E' c' context' st st' err err' h h' heq
  rw [Run_stage_failure_outcome E c context st err h,
    Run_stage_failure_outcome E' c' context' st' err' h'] at heq
  simp only [Outcome.returned.injEq, Option.some.injEq, GoError.withStack.injEq,
    GoError.withMessage.injEq] at heq
  exact ⟨Stage.message_injective c c' st st' heq.2, heq.1⟩

/-- C5 at a sample invocation in which serialization fails with
`AccessDenied`. -/
theorem Run_stage_error_wrapped_with_stage_message_witness :
    (∃ ev ∈ (Run serializerFails sampleCmd sampleContext).trace,
      ev.stageFailure = some (Stage.serialize, GoError.root "AccessDenied")) ∧
    ∃ ret, (Run serializerFails sampleCmd sampleContext).outcome = .returned (some ret) ∧
      some ret = errors.Wrap (some (GoError.root "AccessDenied"))
        (Stage.serialize.message sampleCmd) ∧
      ret.Cause.bind GoError.Cause = some (GoError.root "AccessDenied") ∧
      errors.Cause ret = errors.Cause (GoError.root "AccessDenied") ∧
      ret.Error = Stage.serialize.message sampleCmd ++ ": "
        ++ (GoError.root "AccessDenied").Error :=
  ⟨by decide,
    (Run_stage_error_wrapped_with_stage_message serializerFails sampleCmd sampleContext).1
      Stage.serialize (.root "AccessDenied") (by decide)⟩

theorem len_pos_iff (s : String) : len s > 0 ↔ s ≠ "" := by
  obtain ⟨data⟩ := s
  cases data with
  | nil => simp [len, String.utf8ByteSize, String.utf8ByteSize.go]
  | cons ch rest =>
    have hch := Char.utf8Size_pos ch
    have hne : (String.mk (ch :: rest)) ≠ "" := by
      intro h
      have h2 := congrArg String.data h
      simp at h2
    simp only [len, String.utf8ByteSize, String.utf8ByteSize.go, gt_iff_lt, ne_eq, hne,
      not_false_eq_true, iff_true]
    omega

/-- C8: `createSession` applies the endpoint and the region override each on
its own and only when supplied. In the `aws.Config` it builds, `Endpoint` is
set, to `stsEndpoint`, exactly when `stsEndpoint` is not empty, and is nil
otherwise, whatever `stsRegion` is; likewise `Region` for `stsRegion`; no
other field is set. This config is what `session.NewSession` receives. -/
theorem createSession_applies_overrides_independently (E : Externals H)
    (stsEndpoint stsRegion : String) :
    ((createSessionConfig stsEndpoint stsRegion).Endpoint = some stsEndpoint ↔ stsEndpoint ≠ "") ∧
    (stsEndpoint = "" ↔ (createSessionConfig stsEndpoint stsRegion).Endpoint = none) ∧
    ((createSessionConfig stsEndpoint stsRegion).Region = some stsRegion ↔ stsRegion ≠ "") ∧
    (stsRegion = "" ↔ (createSessionConfig stsEndpoint stsRegion).Region = none) ∧
    (createSessionConfig stsEndpoint stsRegion).Other = [] ∧
    (∀ stsRegion', (createSessionConfig stsEndpoint stsRegion').Endpoint
      = (createSessionConfig stsEndpoint stsRegion).Endpoint) ∧
    (∀ stsEndpoint', (createSessionConfig stsEndpoint' stsRegion).Region
      = (createSessionConfig stsEndpoint stsRegion).Region) ∧
    createSession E stsEndpoint stsRegion
      = E.NewSession (createSessionConfig stsEndpoint stsRegion) := by
  have key : ∀ e r : String, createSessionConfig e r
      = { Endpoint := if e ≠ "" then some e else none,
          Region := if r ≠ "" then some r else none,
          Other := [] } := by
    intro e r
    unfold createSessionConfig
    by_cases he : e = "" <;> by_cases hr : r = "" <;>
      simp [len_pos_iff, he, hr, aws.Config.zero]
  refine ⟨?_, ?_, ?_, ?_, ?_, ?_, ?_, rfl⟩
  · by_cases he : stsEndpoint = "" <;> simp [key, he]
  · by_cases he : stsEndpoint = "" <;> simp [key, he]
  · by_cases hr : stsRegion = "" <;> simp [key, hr]
  · by_cases hr : stsRegion = "" <;> simp [key, hr]
  · simp [key]
  · intro stsRegion'
    simp [key]
  · intro stsEndpoint'
    simp [key]

/-- C7: the SPIFFE ID is optional. With an empty `SpiffeID`, `Run` makes no
call of `spiffeid.FromString`, so no parse can fail, and the ID given to
`JWTSourceProvider` is the zero value; with a `SpiffeID` that is not empty
and parses, the ID given to `JWTSourceProvider` is the result of
`spiffeid.FromString`. The call of `JWTSourceProvider` is made, with the
workload socket and audience of the command, once telemetry has been
configured and no parse failed. -/
theorem Run_SpiffeID_optional (E : Externals H) (c : CredentialsCmd)
    (context : CliContext H) :
    (c.SpiffeID = "" →
      (∀ s err, Event.FromString s err ∉ (Run E c context).trace) ∧
      (∀ id sock aud, Event.JWTSourceProvider id sock aud ∈ (Run E c context).trace →
        id = spiffeid.ID.zero)) ∧
    (∀ parsed, c.SpiffeID ≠ "" → E.FromString c.SpiffeID = .ok parsed →
      ∀ id sock aud, Event.JWTSourceProvider id sock aud ∈ (Run E c context).trace →
        id = parsed) ∧
    ((∃ opts, Event.NewTelemetry opts none ∈ (Run E c context).trace) →
      (∀ s err, Event.FromString s (some err) ∉ (Run E c context).trace) →
      ∃ id, Event.JWTSourceProvider id c.WorkloadSocket c.Audience
        ∈ (Run E c context).trace) := by
  have e1 : ∀ s err, Event.FromString s err ∈ (Run E c context).trace ↔
      Event.FromString s err ∈ core (Run E c context).trace :=
    fun s err => (mem_core_of_isCore _ (Event.FromString s err) rfl).symm
  have e2 : ∀ id sock aud, Event.JWTSourceProvider id sock aud ∈ (Run E c context).trace ↔
      Event.JWTSourceProvider id sock aud ∈ core (Run E c context).trace :=
    fun id sock aud => (mem_core_of_isCore _ (Event.JWTSourceProvider id sock aud) rfl).symm
  have e3 : ∀ opts, Event.NewTelemetry opts none ∈ (Run E c context).trace ↔
      Event.NewTelemetry opts none ∈ core (Run E c context).trace :=
    fun opts => (mem_core_of_isCore _ (Event.NewTelemetry opts none) rfl).symm
  simp only [e1, e2, e3]
  have hc := Run_core E c context
  generalize core (Run E c context).trace = k at hc ⊢
  generalize (Run E c context).outcome = o at hc
  cases hc with
  | fatal => simp
  | telemetryFailed err hnew => simp
  | parseFailed t hnew err hne hparse => simp [hne]
  | sessionPanicked pev t hnew spiffeID hparse p hsess =>
    rcases hparse with ⟨h1, rfl, rfl⟩ | ⟨h1, h2, rfl⟩
    · simp only [h1, List.mem_append, List.mem_cons, List.mem_singleton, List.not_mem_nil,
        reduceCtorEq, Event.JWTSourceProvider.injEq]
      simp
      intros
      assumption
    · simp only [h1, h2, List.mem_append, List.mem_cons, List.mem_singleton, List.not_mem_nil,
        reduceCtorEq, Event.JWTSourceProvider.injEq]
      simp
      intros
      assumption
  | providerFailed pev t hnew spiffeID hparse session hsess logger err hprov =>
    rcases hparse with ⟨h1, rfl, rfl⟩ | ⟨h1, h2, rfl⟩
    · simp only [h1, List.mem_append, List.mem_cons, List.mem_singleton, List.not_mem_nil,
        reduceCtorEq, Event.JWTSourceProvider.injEq]
      simp
      intros
      assumption
    · simp only [h1, h2, List.mem_append, List.mem_cons, List.mem_singleton, List.not_mem_nil,
        reduceCtorEq, Event.JWTSourceProvider.injEq]
      simp
      intros
      assumption
  | serializeFailed pev t hnew spiffeID hparse session hsess logger provider hprov err hser =>
    rcases hparse with ⟨h1, rfl, rfl⟩ | ⟨h1, h2, rfl⟩
    · simp only [h1, List.mem_append, List.mem_cons, List.mem_singleton, List.not_mem_nil,
        reduceCtorEq, Event.JWTSourceProvider.injEq]
      simp
      intros
      assumption
    · simp only [h1, h2, List.mem_append, List.mem_cons, List.mem_singleton, List.not_mem_nil,
        reduceCtorEq, Event.JWTSourceProvider.injEq]
      simp
      intros
      assumption
  | printed pev t hnew spiffeID hparse session hsess logger provider hprov creds hser =>
    rcases hparse with ⟨h1, rfl, rfl⟩ | ⟨h1, h2, rfl⟩
    · simp only [h1, List.mem_append, List.mem_cons, List.mem_singleton, List.not_mem_nil,
        reduceCtorEq, Event.JWTSourceProvider.injEq]
      simp
      intros
      assumption
    · simp only [h1, h2, List.mem_append, List.mem_cons, List.mem_singleton, List.not_mem_nil,
        reduceCtorEq, Event.JWTSourceProvider.injEq]
      simp
      intros
      assumption

/-- C7 at two sample invocations: one without a SPIFFE ID, where the token
source receives the zero value, and one with the SPIFFE ID of the sample
command, where it receives the parsed ID. -/
theorem Run_SpiffeID_optional_witness :
    (noIDCmd.SpiffeID = "" ∧
      Event.JWTSourceProvider spiffeid.ID.zero noIDCmd.WorkloadSocket noIDCmd.Audience
        ∈ (Run sampleExternals noIDCmd sampleContext).trace ∧
      ∀ s err, Event.FromString s err ∉ (Run sampleExternals noIDCmd sampleContext).trace) ∧
    (sampleCmd.SpiffeID ≠ "" ∧
      Event.JWTSourceProvider { td := "example.org", path := "/workload" }
        sampleCmd.WorkloadSocket sampleCmd.Audience
        ∈ (Run sampleExternals sampleCmd sampleContext).trace ∧
      ∀ id sock aud, Event.JWTSourceProvider id sock aud
        ∈ (Run sampleExternals sampleCmd sampleContext).trace →
        id = { td := "example.org", path := "/workload" }) :=
  ⟨⟨by decide, by decide,
      ((Run_SpiffeID_optional sampleExternals noIDCmd sampleContext).1 (by decide)).1⟩,
    ⟨by decide, by decide,
      (Run_SpiffeID_optional sampleExternals sampleCmd sampleContext).2.1
        { td := "example.org", path := "/workload" } (by decide) (by decide)⟩⟩

theorem CorePath.calls_made {E : Externals H} {c : CredentialsCmd} {context : CliContext H}
    {k : List Event} {o : Outcome} (hc : CorePath E c context k o)
    (htel : ∃ opts, Event.NewTelemetry opts none ∈ k)
    (hparsed : ∀ s err, Event.FromString s (some err) ∉ k) :
    ∃ id, Event.JWTSourceProvider id c.WorkloadSocket c.Audience ∈ k ∧
      ((∀ config p, Event.NewSession config (some p) ∉ k) →
        ∃ logger t session,
          E.NewTelemetry (configuredOpts c context.TelemetryOpts) = .ok t ∧
          E.NewSession (createSessionConfig c.STSEndpoint c.STSRegion) = .ok session ∧
          Event.NewProvider c.Audience c.RoleARN c.SessionName c.SessionDuration
            (errorOf (E.NewProvider c.Audience c.RoleARN
              (context.JWTSourceProvider id c.WorkloadSocket c.Audience logger t)
              c.SessionName c.SessionDuration (context.STSProvider session) t logger)) ∈ k) := by
  cases hc with
  | fatal =>
    obtain ⟨opts, hopts⟩ := htel
    simp at hopts
  | telemetryFailed err hnew =>
    obtain ⟨opts, hopts⟩ := htel
    simp at hopts
  | parseFailed t hnew err hne hparse =>
    exact absurd (by simp) (hparsed c.SpiffeID err)
  | sessionPanicked pev t hnew spiffeID hparse p hsess =>
    refine ⟨spiffeID, by simp, fun h => ?_⟩
    exact absurd (by simp) (h (createSessionConfig c.STSEndpoint c.STSRegion) p)
  | providerFailed pev t hnew spiffeID hparse session hsess logger err hprov =>
    refine ⟨spiffeID, by simp, fun _ => ⟨logger, t, session, hnew, hsess, ?_⟩⟩
    rw [hprov]
    simp [errorOf]
  | serializeFailed pev t hnew spiffeID hparse session hsess logger provider hprov err hser =>
    refine ⟨spiffeID, by simp, fun _ => ⟨logger, t, session, hnew, hsess, ?_⟩⟩
    rw [hprov]
    simp [errorOf]
  | printed pev t hnew spiffeID hparse session hsess logger provider hprov creds hser =>
    refine ⟨spiffeID, by simp, fun _ => ⟨logger, t, session, hnew, hsess, ?_⟩⟩
    rw [hprov]
    simp [errorOf]

/-- C10: `Run` forwards its configuration as it stands. Every call of
`JWTSourceProvider` receives the audience and the workload socket of the
command, every call of `credentials.NewProvider` receives its audience, role
ARN, session name and session duration, each unchanged, so both receive the
same audience string; a call of `NewProvider` comes after a call of
`JWTSourceProvider`; and the command is the same after `Run` as before.
The calls are made: once telemetry is configured and no parse failed,
`JWTSourceProvider` is called with the workload socket and the audience of
the command, and, unless `session.NewSession` failed, `credentials.NewProvider`
is called on the audience, role ARN, session name and session duration of the
command, the source `JWTSourceProvider` returned for that same audience, the
STS client and the telemetry handle, and its error is the one recorded. -/
theorem Run_forwards_configuration (E : Externals H) (c : CredentialsCmd)
    (context : CliContext H) :
    (∀ id sock aud, Event.JWTSourceProvider id sock aud ∈ (Run E c context).trace →
      aud = c.Audience ∧ sock = c.WorkloadSocket) ∧
    (∀ aud role name dur err,
      Event.NewProvider aud role name dur err ∈ (Run E c context).trace →
      aud = c.Audience ∧ role = c.RoleARN ∧ name = c.SessionName ∧ dur = c.SessionDuration ∧
        ∃ id, Event.JWTSourceProvider id c.WorkloadSocket aud ∈ (Run E c context).trace) ∧
    (Run E c context).cmd = c ∧
    ((∃ opts, Event.NewTelemetry opts none ∈ (Run E c context).trace) →
      (∀ s err, Event.FromString s (some err) ∉ (Run E c context).trace) →
      ∃ id, Event.JWTSourceProvider id c.WorkloadSocket c.Audience ∈ (Run E c context).trace ∧
        ((∀ config p, Event.NewSession config (some p) ∉ (Run E c context).trace) →
          ∃ logger t session,
            E.NewTelemetry (configuredOpts c context.TelemetryOpts) = .ok t ∧
            E.NewSession (createSessionConfig c.STSEndpoint c.STSRegion) = .ok session ∧
            Event.NewProvider c.Audience c.RoleARN c.SessionName c.SessionDuration
              (errorOf (E.NewProvider c.Audience c.RoleARN
                (context.JWTSourceProvider id c.WorkloadSocket c.Audience logger t)
                c.SessionName c.SessionDuration (context.STSProvider session) t logger))
              ∈ (Run E c context).trace)) := by
  have e2 : ∀ id sock aud, Event.JWTSourceProvider id sock aud ∈ (Run E c context).trace ↔
      Event.JWTSourceProvider id sock aud ∈ core (Run E c context).trace :=
    fun id sock aud => (mem_core_of_isCore _ (Event.JWTSourceProvider id sock aud) rfl).symm
  have e4 : ∀ aud role name dur err,
      Event.NewProvider aud role name dur err ∈ (Run E c context).trace ↔
      Event.NewProvider aud role name dur err ∈ core (Run E c context).trace :=
    fun aud role name dur err =>
      (mem_core_of_isCore _ (Event.NewProvider aud role name dur err) rfl).symm
  have hcmd : (Run E c context).cmd = c := by
    unfold Run
    simp only
    split
    · rfl
    · split <;> rfl
  have hmade : (∃ opts, Event.NewTelemetry opts none ∈ (Run E c context).trace) →
      (∀ s err, Event.FromString s (some err) ∉ (Run E c context).trace) →
      ∃ id, Event.JWTSourceProvider id c.WorkloadSocket c.Audience ∈ (Run E c context).trace ∧
        ((∀ config p, Event.NewSession config (some p) ∉ (Run E c context).trace) →
          ∃ logger t session,
            E.NewTelemetry (configuredOpts c context.TelemetryOpts) = .ok t ∧
            E.NewSession (createSessionConfig c.STSEndpoint c.STSRegion) = .ok session ∧
            Event.NewProvider c.Audience c.RoleARN c.SessionName c.SessionDuration
              (errorOf (E.NewProvider c.Audience c.RoleARN
                (context.JWTSourceProvider id c.WorkloadSocket c.Audience logger t)
                c.SessionName c.SessionDuration (context.STSProvider session) t logger))
              ∈ (Run E c context).trace) := by
    rintro ⟨opts, hopts⟩ hparsed
    obtain ⟨id, hid, hrest⟩ := (Run_core E c context).calls_made
      ⟨opts, (mem_core_of_isCore _ (Event.NewTelemetry opts none) rfl).2 hopts⟩
      (fun s err hmem => hparsed s err (mem_core.1 hmem).1)
    refine ⟨id, (mem_core.1 hid).1, fun hsess => ?_⟩
    obtain ⟨logger, t, session, h1, h2, h3⟩ :=
      hrest (fun config p hmem => hsess config p (mem_core.1 hmem).1)
    exact ⟨logger, t, session, h1, h2, (mem_core.1 h3).1⟩
  refine ⟨?_, ?_, hcmd, hmade⟩
  all_goals
    simp only [e2, e4]
    have hc := Run_core E c context
    generalize core (Run E c context).trace = k at hc ⊢
    generalize (Run E c context).outcome = o at hc
    cases hc with
    | fatal => simp
    | telemetryFailed err hnew => simp
    | parseFailed t hnew err hne hparse => simp
    | sessionPanicked pev t hnew spiffeID hparse p hsess =>
      rcases hparse with ⟨_, _, rfl⟩ | ⟨_, _, rfl⟩ <;> simp <;> intros <;> simp_all
    | providerFailed pev t hnew spiffeID hparse session hsess logger err hprov =>
      rcases hparse with ⟨_, _, rfl⟩ | ⟨_, _, rfl⟩ <;> simp <;> intros <;> simp_all
    | serializeFailed pev t hnew spiffeID hparse session hsess logger provider hprov err hser =>
      rcases hparse with ⟨_, _, rfl⟩ | ⟨_, _, rfl⟩ <;> simp <;> intros <;> simp_all
    | printed pev t hnew spiffeID hparse session hsess logger provider hprov creds hser =>
      rcases hparse with ⟨_, _, rfl⟩ | ⟨_, _, rfl⟩ <;> simp <;> intros <;> simp_all

/-- C10 at the sample invocation: the token source and the provider are
called, on the fields of the sample command. -/
theorem Run_forwards_configuration_witness :
    (∃ opts, Event.NewTelemetry opts none
      ∈ (Run sampleExternals sampleCmd sampleContext).trace) ∧
    (∀ s err, Event.FromString s (some err)
      ∉ (Run sampleExternals sampleCmd sampleContext).trace) ∧
    Event.JWTSourceProvider { td := "example.org", path := "/workload" }
      "/run/spire/agent.sock" "sts.amazonaws.com"
      ∈ (Run sampleExternals sampleCmd sampleContext).trace ∧
    Event.NewProvider "sts.amazonaws.com" "arn:aws:iam::123456789012:role/example" "example"
      900000000000 none ∈ (Run sampleExternals sampleCmd sampleContext).trace ∧
    (∀ aud role name dur err, Event.NewProvider aud role name dur err
      ∈ (Run sampleExternals sampleCmd sampleContext).trace →
      aud = sampleCmd.Audience ∧ role = sampleCmd.RoleARN ∧ name = sampleCmd.SessionName ∧
        dur = sampleCmd.SessionDuration ∧
        ∃ id, Event.JWTSourceProvider id sampleCmd.WorkloadSocket aud
          ∈ (Run sampleExternals sampleCmd sampleContext).trace) ∧
    ∃ id, Event.JWTSourceProvider id sampleCmd.WorkloadSocket sampleCmd.Audience
      ∈ (Run sampleExternals sampleCmd sampleContext).trace :=
  have h := Run_forwards_configuration sampleExternals sampleCmd sampleContext
  have htel : ∃ opts, Event.NewTelemetry opts none
      ∈ (Run sampleExternals sampleCmd sampleContext).trace :=
    ⟨configuredOpts sampleCmd sampleContext.TelemetryOpts, by decide⟩
  have hparsed : ∀ s err, Event.FromString s (some err)
      ∉ (Run sampleExternals sampleCmd sampleContext).trace := by
    intro s err hmem
    have hall : ∀ ev ∈ (Run sampleExternals sampleCmd sampleContext).trace,
        ev.stageFailure = none := by decide
    have := hall _ hmem
    simp [Event.stageFailure] at this
  ⟨htel, hparsed, by decide, by decide, h.2.1,
    (h.2.2.2 htel hparsed).imp (fun _ hid => hid.1)⟩

/-- C6 does not hold as stated: in this invocation the role ARN is empty and
provider construction fails with a `ConfigurationError`, which `Run` returns
wrapped, but `JWTSourceProvider`, `session.NewSession` (in `createSession`)
and `STSProvider` have been called before: their results are arguments of
`credentials.NewProvider`. -/
theorem Run_empty_RoleARN_after_collaborators :
    noRoleCmd.RoleARN = "" ∧
    Event.JWTSourceProvider { td := "example.org", path := "/workload" }
      "/run/spire/agent.sock" "sts.amazonaws.com"
      ∈ (Run validatingExternals noRoleCmd sampleContext).trace ∧
    Event.NewSession { Endpoint := none, Region := some "us-west-2", Other := [] } none
      ∈ (Run validatingExternals noRoleCmd sampleContext).trace ∧
    Event.STSProvider ∈ (Run validatingExternals noRoleCmd sampleContext).trace ∧
    (Run validatingExternals noRoleCmd sampleContext).outcome
      = .returned (some (.withStack (.withMessage (credentials.ConfigurationError "role ARN is empty")
          "failed to instantiate credentials provider"))) := by
  refine ⟨by decide, by decide, by decide, by decide, by decide⟩

theorem NewProvider_empty {H : Handles} (lo hi : Int)
    (build : String → String → H.JWTSource → String → Int → H.STSClient → H.Telemetry →
      H.Logger → H.Provider)
    (audience roleARN : String) (h : roleARN = "" ∨ audience = "") (src : H.JWTSource)
    (sessionName : String) (sessionDuration : Int) (stsClient : H.STSClient) (t : H.Telemetry)
    (logger : H.Logger) :
    ∃ detail, credentials.NewProvider lo hi build audience roleARN src sessionName
      sessionDuration stsClient t logger = .error (credentials.ConfigurationError detail) := by
  unfold credentials.NewProvider
  by_cases hr : roleARN = ""
  · exact ⟨"role ARN is empty", by simp [hr]⟩
  · have ha : audience = "" := h.resolve_left hr
    exact ⟨"audience is empty", by simp [hr, ha]⟩

/-- C6, amended: given an empty role ARN (or an empty audience), provider
construction fails synchronously with a `ConfigurationError`; `Run` calls
neither `SerializeCredentials` nor `fmt.Print` and does not succeed; and when
`Run` reaches provider construction it returns that `ConfigurationError`
wrapped as "failed to instantiate credentials provider", having called
`JWTSourceProvider`, `createSession` and `STSProvider` before to make the
arguments of `NewProvider`. -/
theorem Run_empty_RoleARN_fails_at_construction (E : Externals H) (c : CredentialsCmd)
    (context : CliContext H) (lo hi : Int)
    (build : String → String → H.JWTSource → String → Int → H.STSClient → H.Telemetry →
      H.Logger → H.Provider)
    (hspec : E.NewProvider = credentials.NewProvider lo hi build)
    (hempty : c.RoleARN = "" ∨ c.Audience = "") :
    (∀ src sts t logger, ∃ detail,
      E.NewProvider c.Audience c.RoleARN src c.SessionName c.SessionDuration sts t logger
        = .error (credentials.ConfigurationError detail)) ∧
    (∀ ev ∈ (Run E c context).trace, ev.isPrint = false ∧
      ∀ r, ev ≠ Event.SerializeCredentials r) ∧
    (Run E c context).outcome.succeeded = false ∧
    (∀ aud role name dur err,
      Event.NewProvider aud role name dur err ∈ (Run E c context).trace →
      (∃ detail, err = some (credentials.ConfigurationError detail) ∧
        (Run E c context).outcome
          = .returned (some (.withStack (.withMessage (credentials.ConfigurationError detail)
              "failed to instantiate credentials provider")))) ∧
      (∃ id, Event.JWTSourceProvider id c.WorkloadSocket c.Audience
        ∈ (Run E c context).trace) ∧
      Event.NewSession (createSessionConfig c.STSEndpoint c.STSRegion) none
        ∈ (Run E c context).trace ∧
      Event.STSProvider ∈ (Run E c context).trace) := by
  have hfail : ∀ src sts t logger, ∃ detail,
      E.NewProvider c.Audience c.RoleARN src c.SessionName c.SessionDuration sts t logger
        = .error (credentials.ConfigurationError detail) := by
    intro src sts t logger
    rw [hspec]
    exact NewProvider_empty lo hi build _ _ hempty _ _ _ _ _ _
  refine ⟨hfail, ?_⟩
  suffices hs : (∀ ev ∈ core (Run E c context).trace, ev.isPrint = false ∧
        ∀ r, ev ≠ Event.SerializeCredentials r) ∧
      (Run E c context).outcome.succeeded = false ∧
      (∀ aud role name dur err,
        Event.NewProvider aud role name dur err ∈ core (Run E c context).trace →
        (∃ detail, err = some (credentials.ConfigurationError detail) ∧
          (Run E c context).outcome
            = .returned (some (.withStack (.withMessage (credentials.ConfigurationError detail)
                "failed to instantiate credentials provider")))) ∧
        (∃ id, Event.JWTSourceProvider id c.WorkloadSocket c.Audience
          ∈ core (Run E c context).trace) ∧
        Event.NewSession (createSessionConfig c.STSEndpoint c.STSRegion) none
          ∈ core (Run E c context).trace ∧
        Event.STSProvider ∈ core (Run E c context).trace) by
    refine ⟨forall_mem_of_core ?_ hs.1, hs.2.1, ?_⟩
    · intro ev hev
      refine ⟨isPrint_of_not_isCore ev hev, ?_⟩
      rintro r rfl
      cases hev
    · intro aud role name dur err hmem
      obtain ⟨h1, ⟨id, h2⟩, h3, h4⟩ := hs.2.2 aud role name dur err
        ((mem_core_of_isCore _ (Event.NewProvider aud role name dur err) rfl).2 hmem)
      exact ⟨h1, ⟨id, (mem_core.1 h2).1⟩, (mem_core.1 h3).1, (mem_core.1 h4).1⟩
  have hc := Run_core E c context
  generalize core (Run E c context).trace = k at hc ⊢
  generalize (Run E c context).outcome = o at hc ⊢
  cases hc with
  | fatal => simp [Outcome.succeeded]
  | telemetryFailed err hnew => simp [Outcome.succeeded, Event.isPrint]
  | parseFailed t hnew err hne hparse => simp [Outcome.succeeded, Event.isPrint]
  | sessionPanicked pev t hnew spiffeID hparse p hsess =>
    rcases hparse with ⟨_, _, rfl⟩ | ⟨_, _, rfl⟩ <;> simp [Outcome.succeeded, Event.isPrint]
  | providerFailed pev t hnew spiffeID hparse session hsess logger err hprov =>
    obtain ⟨detail, hd⟩ := hfail
      (context.JWTSourceProvider spiffeID c.WorkloadSocket c.Audience logger t)
      (context.STSProvider session) t logger
    rw [hd] at hprov
    cases hprov
    rcases hparse with ⟨_, _, rfl⟩ | ⟨_, _, rfl⟩ <;>
      simp [Outcome.succeeded, Event.isPrint, Stage.message] <;>
      (intro _ _ _ _ err _ _ _ _ herr; exact ⟨detail, herr, rfl⟩)
  | serializeFailed pev t hnew spiffeID hparse session hsess logger provider hprov err hser =>
    obtain ⟨detail, hd⟩ := hfail
      (context.JWTSourceProvider spiffeID c.WorkloadSocket c.Audience logger t)
      (context.STSProvider session) t logger
    rw [hd] at hprov
    cases hprov
  | printed pev t hnew spiffeID hparse session hsess logger provider hprov creds hser =>
    obtain ⟨detail, hd⟩ := hfail
      (context.JWTSourceProvider spiffeID c.WorkloadSocket c.Audience logger t)
      (context.STSProvider session) t logger
    rw [hd] at hprov
    cases hprov

/-- C6, amended, at a sample invocation without a role ARN. -/
theorem Run_empty_RoleARN_fails_at_construction_witness :
    (noRoleCmd.RoleARN = "" ∨ noRoleCmd.Audience = "") ∧
    (∀ ev ∈ (Run validatingExternals noRoleCmd sampleContext).trace, ev.isPrint = false ∧
      ∀ r, ev ≠ Event.SerializeCredentials r) ∧
    (Run validatingExternals noRoleCmd sampleContext).outcome.succeeded = false ∧
    Event.NewProvider "sts.amazonaws.com" "" "example" 900000000000
      (some (credentials.ConfigurationError "role ARN is empty"))
      ∈ (Run validatingExternals noRoleCmd sampleContext).trace :=
  have h := Run_empty_RoleARN_fails_at_construction validatingExternals noRoleCmd
    sampleContext 900000000000 43200000000000 (fun _ _ _ _ _ _ _ _ => 3) rfl
    (Or.inl (by decide))
  ⟨Or.inl (by decide), h.2.1, h.2.2.1, by decide⟩

end Paths

end SpiffeAwsAssumeRole
